import Mathlib

/-!
# Verification development for the x64 backend runtime and the content API

The definitions below embed the declarations of
`src/xenia/cpu/backend/x64/x64_backend.h` and the functions of
`src/xenia/kernel/xam/xam_content.cc`.  Machine integers are natural
numbers with explicit reduction modulo `2 ^ w` where a width matters.
The header declares the runtime operations but their bodies live in
translation units that are not part of the source tree at hand; those
operations are modelled from the specification and are marked as such.
-/

namespace xe.cpu.backend.x64

/-! ## Constants of the header -/

/-- First guest address of the trampoline range (`GUEST_TRAMPOLINE_BASE`). -/
def GUEST_TRAMPOLINE_BASE : Nat := 0x80000000

/-- One past the last guest address of the trampoline range
(`GUEST_TRAMPOLINE_END`). -/
def GUEST_TRAMPOLINE_END : Nat := 0x80040000

/-- Length in bytes of one trampoline slot (`GUEST_TRAMPOLINE_MIN_LEN`). -/
def GUEST_TRAMPOLINE_MIN_LEN : Nat := 8

/-- Number of trampoline slots (`MAX_GUEST_TRAMPOLINES`). -/
def MAX_GUEST_TRAMPOLINES : Nat :=
  (GUEST_TRAMPOLINE_END - GUEST_TRAMPOLINE_BASE) / GUEST_TRAMPOLINE_MIN_LEN

/-- Shift that turns a guest address into its reservation block index
(`RESERVE_BLOCK_SHIFT`). -/
def RESERVE_BLOCK_SHIFT : Nat := 16

/-- Number of reservation blocks (`RESERVE_NUM_ENTRIES`), a 64-bit
constant expression in the header. -/
def RESERVE_NUM_ENTRIES : Nat :=
  (1024 * 1024 * 1024 * 4) >>> RESERVE_BLOCK_SHIFT

/-- The struct `ReserveHelper`: an array of `RESERVE_NUM_ENTRIES / 64`
words of 64 bits, one bit per reservation block. -/
structure ReserveHelper where
  blocks : Fin (RESERVE_NUM_ENTRIES / 64) → Nat

/-- The constructor `ReserveHelper()`: every word is zeroed by `memset`. -/
def ReserveHelper.new : ReserveHelper := ⟨fun _ => 0⟩

/-- The struct `X64BackendStackpoint`. -/
structure X64BackendStackpoint where
  host_stack_ : Nat
  guest_stack_ : Nat
  guest_return_address_ : Nat
deriving DecidableEq, Repr

/-- Bit number of the loaded-domain flag in `X64BackendContext::flags`. -/
def kX64BackendMXCSRModeBit : Nat := 0
/-- Bit number of the "got reserve" flag. -/
def kX64BackendHasReserveBit : Nat := 1
/-- Bit number of the non-java-mode flag. -/
def kX64BackendNJMOn : Nat := 2
/-- Bit number of the non-IEEE-mode flag. -/
def kX64BackendNonIEEEMode : Nat := 3

/-- The struct `X64BackendContext`, without the scratch union and the
pointers to objects owned elsewhere (`reserve_helper_`, `guest_tick_count`);
the stackpoint array behind `stackpoints` is a map from index to record. -/
structure X64BackendContext where
  cached_reserve_value_ : Nat
  stackpoints : Nat → X64BackendStackpoint
  cached_reserve_offset : Nat
  cached_reserve_bit : Nat
  current_stackpoint_depth : Nat
  mxcsr_fpu : Nat
  mxcsr_vmx : Nat
  flags : Nat
  Ox1000 : Nat

/-- Sizes in bytes of the members of `X64BackendContext` in declaration
order on the x64 host: the 64-byte scratch union, four 8-byte members
(`reserve_helper_`, `cached_reserve_value_`, `guest_tick_count`,
`stackpoints`), the 8-byte `cached_reserve_offset`, and six 4-byte
members.  Every member falls on a multiple of its own alignment, so the
struct has no padding. -/
def X64BackendContext.memberSizes : List Nat :=
  [64, 8, 8, 8, 8, 8, 4, 4, 4, 4, 4, 4]

/-- The value of `sizeof(X64BackendContext)`. -/
def sizeof_X64BackendContext : Nat := X64BackendContext.memberSizes.sum

/-- The intrinsic header's `_MM_MASK_MASK`: the six exception-mask bits of
MXCSR. -/
def _MM_MASK_MASK : Nat := 0x1F80

/-- The constant `DEFAULT_VMX_MXCSR`. -/
def DEFAULT_VMX_MXCSR : Nat := 0x8000 ||| 0x0040 ||| _MM_MASK_MASK

/-- The constant `DEFAULT_FPU_MXCSR`. -/
def DEFAULT_FPU_MXCSR : Nat := 0x1F80

/-! ## Reservation emulator -/

/-- Reservation block index of a guest address, as the reservation helpers
compute it: the 32-bit address shifted right by `RESERVE_BLOCK_SHIFT`. -/
def reserveBlock (address : Nat) : Nat :=
  (address % 2 ^ 32) >>> RESERVE_BLOCK_SHIFT

/-- Index into `ReserveHelper::blocks` of the word holding the bit of the
address's block. -/
def reserveWord (address : Nat) : Fin (RESERVE_NUM_ENTRIES / 64) :=
  ⟨reserveBlock address / 64, by
    unfold reserveBlock RESERVE_NUM_ENTRIES RESERVE_BLOCK_SHIFT
    have h : address % 2 ^ 32 < 2 ^ 32 := Nat.mod_lt _ (by norm_num)
    rw [Nat.shiftRight_eq_div_pow, Nat.shiftRight_eq_div_pow]
    omega⟩

/-- Bit number, inside its word, of the address's block. -/
def reserveBit (address : Nat) : Nat := reserveBlock address % 64

/-- Atomic bit test of one bit of the bitmap. -/
def ReserveHelper.test (r : ReserveHelper) (w : Fin (RESERVE_NUM_ENTRIES / 64))
    (b : Nat) : Bool :=
  (r.blocks w).testBit b

/-- Atomic bit set of one bit of the bitmap. -/
def ReserveHelper.set (r : ReserveHelper) (w : Fin (RESERVE_NUM_ENTRIES / 64))
    (b : Nat) : ReserveHelper :=
  ⟨Function.update r.blocks w (r.blocks w ||| (1 <<< b))⟩

/-- Atomic bit clear of one bit of the bitmap: the word is masked with the
64-bit complement of the bit. -/
def ReserveHelper.clear (r : ReserveHelper) (w : Fin (RESERVE_NUM_ENTRIES / 64))
    (b : Nat) : ReserveHelper :=
  ⟨Function.update r.blocks w (r.blocks w &&& ((2 ^ 64 - 1) ^^^ (1 <<< b)))⟩

/-- The state the reservation protocol runs on: the process-wide
`ReserveHelper`, guest memory as a map from guest address to the value
stored there, and one `X64BackendContext` per emulated thread. -/
structure Machine where
  reserve_helper_ : ReserveHelper
  memory : Nat → Nat
  contexts : Nat → X64BackendContext

/-- Modelled from the spec: the body behind `try_acquire_reservation_helper_`
is not in the source tree.  Reserve(address) computes the block's word and
bit, sets the bit in the global bitmap, records (value at address, byte
offset of the word, bit) in the requesting thread's cached-reservation
fields, and returns the loaded value. -/
def Reserve (m : Machine) (thread address : Nat) : Machine × Nat :=
  let value := m.memory address
  let w := reserveWord address
  let b := reserveBit address
  let c := m.contexts thread
  ({ m with
      reserve_helper_ := m.reserve_helper_.set w b
      contexts := Function.update m.contexts thread
        { c with
            cached_reserve_value_ := value
            cached_reserve_offset := 8 * w.val
            cached_reserve_bit := b } },
   value)

/-- Modelled from the spec: the bodies behind `reserved_store_32_helper` and
`reserved_store_64_helper` are not in the source tree.
StoreConditional(address, new_value) verifies that the thread's cached bit
still matches the target block and is still set in the global bitmap; if so
it clears the bit, performs the store and reports success; otherwise it
reports failure without writing memory. -/
def StoreConditional (m : Machine) (thread address new_value : Nat) : Machine × Bool :=
  let w := reserveWord address
  let b := reserveBit address
  let c := m.contexts thread
  if c.cached_reserve_offset = 8 * w.val ∧ c.cached_reserve_bit = b ∧
      m.reserve_helper_.test w b = true then
    ({ m with
        reserve_helper_ := m.reserve_helper_.clear w b
        memory := Function.update m.memory address new_value },
     true)
  else
    (m, false)

/-- Modelled from the spec: the code generated for ordinary guest stores is
not in the source tree.  Invalidate-on-write rule: an ordinary
(non-reserving) store clears the bit of the block it writes into, whichever
thread issued the reservation, and performs the store. -/
def OrdinaryStore (m : Machine) (_thread address value : Nat) : Machine :=
  { m with
      reserve_helper_ := m.reserve_helper_.clear (reserveWord address) (reserveBit address)
      memory := Function.update m.memory address value }

/-! ## Trampoline allocator -/

/-- Modelled from the spec: the class `BitMap` of `xenia/base/bit_map.h` is
not in the source tree.  One bit per slot; a set bit means "slot in use". -/
structure BitMap (n : Nat) where
  bits : Fin n → Bool

/-- The bitmap with every slot free. -/
def BitMap.empty (n : Nat) : BitMap n := ⟨fun _ => false⟩

/-- Search for the lowest free slot at or after `i`, looking at no more than
`fuel` slots. -/
def BitMap.firstFree {n : Nat} (b : BitMap n) : Nat → Nat → Option (Fin n)
  | 0, _ => none
  | fuel + 1, i =>
    if h : i < n then
      if b.bits ⟨i, h⟩ then b.firstFree fuel (i + 1) else some ⟨i, h⟩
    else none

/-- Modelled from the spec: finds a free slot in the bitmap and marks it
used; `none` when no free slot exists, and then the bitmap is unchanged. -/
def BitMap.Acquire {n : Nat} (b : BitMap n) : BitMap n × Option (Fin n) :=
  match b.firstFree n 0 with
  | some i => (⟨Function.update b.bits i true⟩, some i)
  | none => (b, none)

/-- Modelled from the spec: marks a slot free. -/
def BitMap.Release {n : Nat} (b : BitMap n) (i : Fin n) : BitMap n :=
  ⟨Function.update b.bits i false⟩

/-- What a stub does when entered from guest code: it transfers control to
the host procedure with the two user-data values. -/
structure GuestTrampoline where
  proc : Nat
  userdata1 : Nat
  userdata2 : Nat
deriving DecidableEq, Repr

/-- The members of the class `X64Backend` that the modelled operations use:
the three stack-synchronization helper addresses, the trampoline slot
bitmap, and the trampoline memory as a map from slot to the stub bound
there. -/
structure X64Backend where
  synchronize_guest_and_host_stack_helper_size8_ : Nat
  synchronize_guest_and_host_stack_helper_size16_ : Nat
  synchronize_guest_and_host_stack_helper_size32_ : Nat
  guest_trampoline_address_bitmap_ : BitMap MAX_GUEST_TRAMPOLINES
  guest_trampoline_memory_ : Fin MAX_GUEST_TRAMPOLINES → Option GuestTrampoline

/-- The backend right after construction: null helper addresses, every
trampoline slot free. -/
def X64Backend.new : X64Backend :=
  { synchronize_guest_and_host_stack_helper_size8_ := 0
    synchronize_guest_and_host_stack_helper_size16_ := 0
    synchronize_guest_and_host_stack_helper_size32_ := 0
    guest_trampoline_address_bitmap_ := BitMap.empty MAX_GUEST_TRAMPOLINES
    guest_trampoline_memory_ := fun _ => none }

/-- Outcomes of a failed trampoline allocation. -/
inductive TrampolineError where
  | ResourceExhausted
deriving DecidableEq, Repr

/-- Modelled from the spec: the body of `X64Backend::CreateGuestTrampoline`
is not in the source tree.  It finds a free run of slots sized to the
minimum stub length (one slot), marks it used, binds a stub there and
returns the guest address of the stub; it fails with ResourceExhausted when
no free run exists.  The `long_term` flag does not change placement (a
single unified bitmap allocator). -/
def X64Backend.CreateGuestTrampoline (b : X64Backend) (proc userdata1 userdata2 : Nat)
    (_long_term : Bool) : X64Backend × Except TrampolineError Nat :=
  match b.guest_trampoline_address_bitmap_.Acquire with
  | (bm, some i) =>
    ({ b with
        guest_trampoline_address_bitmap_ := bm
        guest_trampoline_memory_ :=
          Function.update b.guest_trampoline_memory_ i (some ⟨proc, userdata1, userdata2⟩) },
     .ok (GUEST_TRAMPOLINE_BASE + i.val * GUEST_TRAMPOLINE_MIN_LEN))
  | (_, none) => (b, .error .ResourceExhausted)

/-- Slot index of a guest address inside the trampoline range, `none` for an
address outside `[GUEST_TRAMPOLINE_BASE, GUEST_TRAMPOLINE_END)`. -/
def trampolineSlot (trampoline_addr : Nat) : Option (Fin MAX_GUEST_TRAMPOLINES) :=
  if h : GUEST_TRAMPOLINE_BASE ≤ trampoline_addr ∧ trampoline_addr < GUEST_TRAMPOLINE_END then
    some ⟨(trampoline_addr - GUEST_TRAMPOLINE_BASE) / GUEST_TRAMPOLINE_MIN_LEN, by
      unfold MAX_GUEST_TRAMPOLINES
      unfold GUEST_TRAMPOLINE_BASE GUEST_TRAMPOLINE_END at h
      unfold GUEST_TRAMPOLINE_BASE GUEST_TRAMPOLINE_END GUEST_TRAMPOLINE_MIN_LEN
      omega⟩
  else none

/-- Modelled from the spec: the body of `X64Backend::FreeGuestTrampoline` is
not in the source tree.  It marks the slot corresponding to the address
free; an address outside the trampoline range has no slot and changes
nothing. -/
def X64Backend.FreeGuestTrampoline (b : X64Backend) (trampoline_addr : Nat) : X64Backend :=
  match trampolineSlot trampoline_addr with
  | some i =>
    { b with guest_trampoline_address_bitmap_ := b.guest_trampoline_address_bitmap_.Release i }
  | none => b

/-- One call of the trampoline interface. -/
inductive TrampolineCall where
  | create (proc userdata1 userdata2 : Nat) (long_term : Bool)
  | free (trampoline_addr : Nat)
deriving DecidableEq, Repr

/-- A backend together with the guest addresses of the trampolines that are
still allocated: those returned by a create whose slot has not been marked
free since. -/
structure TrampolineRun where
  backend : X64Backend
  allocated : List Nat

/-- Effect of one call on a run. -/
def TrampolineRun.step (r : TrampolineRun) : TrampolineCall → TrampolineRun
  | .create proc userdata1 userdata2 long_term =>
    match r.backend.CreateGuestTrampoline proc userdata1 userdata2 long_term with
    | (b, .ok addr) => ⟨b, addr :: r.allocated⟩
    | (b, .error _) => ⟨b, r.allocated⟩
  | .free trampoline_addr =>
    ⟨r.backend.FreeGuestTrampoline trampoline_addr,
     r.allocated.filter (fun a => decide (trampolineSlot a ≠ trampolineSlot trampoline_addr))⟩

/-- The run of a sequence of calls on a freshly constructed backend. -/
def TrampolineRun.run (calls : List TrampolineCall) : TrampolineRun :=
  calls.foldl TrampolineRun.step ⟨X64Backend.new, []⟩

/-- Two trampolines occupy disjoint guest address ranges
`[a, a + GUEST_TRAMPOLINE_MIN_LEN)` and `[b, b + GUEST_TRAMPOLINE_MIN_LEN)`. -/
def trampolinesDisjoint (a b : Nat) : Prop :=
  a + GUEST_TRAMPOLINE_MIN_LEN ≤ b ∨ b + GUEST_TRAMPOLINE_MIN_LEN ≤ a

/-! ## Stack correlation table -/

/-- Modelled from the spec: the lookup behind the stack-synchronization
helpers and `PopulatePseudoStacktrace` is not in the source tree.  One scan
over the entries `[0, n)` of the table that keeps the nearest record whose
host stack pointer is at most the queried value; of two records equally
near, the inner (later) one is kept. -/
def lookupScan (stackpoints : Nat → X64BackendStackpoint) (host_sp : Nat) :
    Nat → Option X64BackendStackpoint
  | 0 => none
  | n + 1 =>
    let e := stackpoints n
    if e.host_stack_ ≤ host_sp then
      match lookupScan stackpoints host_sp n with
      | none => some e
      | some best => if best.host_stack_ ≤ e.host_stack_ then some e else some best
    else lookupScan stackpoints host_sp n

/-- Modelled from the spec: Lookup(host_sp) over the entries
`[0, current_stackpoint_depth)` of the thread's table. -/
def Lookup (c : X64BackendContext) (host_sp : Nat) : Option X64BackendStackpoint :=
  lookupScan c.stackpoints host_sp c.current_stackpoint_depth

/-! ## Rounding-mode multiplexer -/

/-- The two floating-point rounding domains of the guest. -/
inductive RoundingDomain where
  | fpu
  | vmx
deriving DecidableEq, Repr

/-- A thread's context together with the host's physical MXCSR register and
the number of times that register has been loaded. -/
structure RoundingState where
  ctx : X64BackendContext
  mxcsr : Nat
  loads : Nat

/-- The domain currently loaded: bit `kX64BackendMXCSRModeBit` of `flags`
is 0 if MXCSR is the fpu word, else it is the vmx word. -/
def loadedDomain (c : X64BackendContext) : RoundingDomain :=
  if c.flags.testBit kX64BackendMXCSRModeBit then .vmx else .fpu

/-- The logical control word of a domain. -/
def logicalWord (c : X64BackendContext) : RoundingDomain → Nat
  | .fpu => c.mxcsr_fpu
  | .vmx => c.mxcsr_vmx

/-- Writes the logical control word of a domain. -/
def setLogicalWord (c : X64BackendContext) (w : Nat) : RoundingDomain → X64BackendContext
  | .fpu => { c with mxcsr_fpu := w }
  | .vmx => { c with mxcsr_vmx := w }

/-- Modelled from the spec: the body of `X64Backend::SetGuestRoundingMode`
and the contents of `mxcsr_table` are not in the source tree; the table is
the parameter `mxcsr_table`, from mode to control word.  The operation
updates the logical control word of the named domain; if that domain is the
one currently loaded it also updates the physical register immediately,
otherwise the update is deferred. -/
def SetGuestRoundingMode (mxcsr_table : Nat → Nat) (s : RoundingState)
    (domain : RoundingDomain) (mode : Nat) : RoundingState :=
  let w := mxcsr_table mode
  if loadedDomain s.ctx = domain then
    { ctx := setLogicalWord s.ctx w domain, mxcsr := w, loads := s.loads + 1 }
  else
    { s with ctx := setLogicalWord s.ctx w domain }

/-- Modelled from the spec: the domain-entry sequence emitted by the code
generator is not in the source tree.  If the flag indicates the other
domain is loaded, EnsureDomain reloads the physical register from the
requested domain's logical word and flips the flag; otherwise it is a
no-op. -/
def EnsureDomain (s : RoundingState) (domain : RoundingDomain) : RoundingState :=
  if loadedDomain s.ctx = domain then s
  else
    { ctx := { s.ctx with flags := s.ctx.flags ^^^ (1 <<< kX64BackendMXCSRModeBit) }
      mxcsr := logicalWord s.ctx domain
      loads := s.loads + 1 }

/-- One operation of the rounding-mode multiplexer. -/
inductive RoundingOp where
  | set (domain : RoundingDomain) (mode : Nat)
  | ensure (domain : RoundingDomain)
deriving DecidableEq, Repr

/-- Effect of one operation. -/
def RoundingState.step (mxcsr_table : Nat → Nat) (s : RoundingState) : RoundingOp → RoundingState
  | .set domain mode => SetGuestRoundingMode mxcsr_table s domain mode
  | .ensure domain => EnsureDomain s domain

/-- Whether an operation is a SetGuestRoundingMode for the given domain. -/
def RoundingOp.setsDomain (d : RoundingDomain) : RoundingOp → Bool
  | .set domain _ => decide (domain = d)
  | .ensure _ => false

/-! ## Pointer arithmetic and helper selection -/

/-- The method `X64Backend::BackendContextForGuestContext`: the pointer
`ctx`, cast to `intptr_t`, minus `sizeof(X64BackendContext)` (a `size_t`),
computed in 64 bits and cast back to a pointer. -/
def BackendContextForGuestContext (ctx : Nat) : Nat :=
  (ctx % 2 ^ 64 + 2 ^ 64 - sizeof_X64BackendContext) % 2 ^ 64

/-- The method `X64Backend::synchronize_guest_and_host_stack_helper_for_size`:
a switch on the byte width with the 32-bit helper as the default case. -/
def X64Backend.synchronize_guest_and_host_stack_helper_for_size (b : X64Backend)
    (sz : Nat) : Nat :=
  match sz with
  | 1 => b.synchronize_guest_and_host_stack_helper_size8_
  | 2 => b.synchronize_guest_and_host_stack_helper_size16_
  | _ => b.synchronize_guest_and_host_stack_helper_size32_

/-! ## Invariants used in the proofs -/

/-- The multiplexer invariant for one domain: its logical word is `w`, and
whenever it is the loaded domain the physical register holds `w`. -/
def RoundingState.holds (s : RoundingState) (d : RoundingDomain) (w : Nat) : Prop :=
  logicalWord s.ctx d = w ∧ (loadedDomain s.ctx = d → s.mxcsr = w)

/-- The invariant of a run: the allocated addresses are pairwise distinct,
and each is the address of a slot whose bit is set. -/
def TrampolineRun.consistent (r : TrampolineRun) : Prop :=
  r.allocated.Nodup ∧
  ∀ a ∈ r.allocated, ∃ i : Fin MAX_GUEST_TRAMPOLINES,
    a = GUEST_TRAMPOLINE_BASE + i.val * GUEST_TRAMPOLINE_MIN_LEN ∧
    r.backend.guest_trampoline_address_bitmap_.bits i = true

/-! ## Concrete states used to instantiate the theorems -/

/-- Modelled from the spec: the body of `X64Backend::InitializeBackendContext`
is not in the source tree.  A context as the spec describes it at
initialization: zeroed reservation and stack fields, the two default
control words, the fpu domain loaded, and the constant `0x1000`. -/
def X64BackendContext.initial : X64BackendContext :=
  { cached_reserve_value_ := 0
    stackpoints := fun _ => ⟨0, 0, 0⟩
    cached_reserve_offset := 0
    cached_reserve_bit := 0
    current_stackpoint_depth := 0
    mxcsr_fpu := DEFAULT_FPU_MXCSR
    mxcsr_vmx := DEFAULT_VMX_MXCSR
    flags := 0
    Ox1000 := 0x1000 }

/-- The machine of the end-to-end scenario: an empty reservation bitmap,
guest memory holding 5 at address `0x1000` and 0 elsewhere. -/
def scenarioMachine : Machine :=
  { reserve_helper_ := ReserveHelper.new
    memory := fun a => if a = 0x1000 then 5 else 0
    contexts := fun _ => X64BackendContext.initial }

/-- A table of three nested frames on a downward-growing host stack. -/
def scenarioStackContext : X64BackendContext :=
  { X64BackendContext.initial with
    stackpoints := fun i =>
      match i with
      | 0 => ⟨0x7000, 0x300, 0x82000000⟩
      | 1 => ⟨0x6000, 0x200, 0x82000010⟩
      | 2 => ⟨0x5000, 0x100, 0x82000020⟩
      | _ => ⟨0, 0, 0⟩
    current_stackpoint_depth := 3 }

/-- A backend whose trampoline bitmap has every slot in use. -/
def fullBackend : X64Backend :=
  { X64Backend.new with guest_trampoline_address_bitmap_ := ⟨fun _ => true⟩ }

/-- A backend with three distinct helper addresses. -/
def scenarioBackend : X64Backend :=
  { X64Backend.new with
    synchronize_guest_and_host_stack_helper_size8_ := 0x1000
    synchronize_guest_and_host_stack_helper_size16_ := 0x2000
    synchronize_guest_and_host_stack_helper_size32_ := 0x3000 }

/-- A rounding state right after context initialization. -/
def scenarioRoundingState : RoundingState :=
  { ctx := X64BackendContext.initial, mxcsr := DEFAULT_FPU_MXCSR, loads := 0 }

/-- A sequence of five trampoline calls. -/
def scenarioCalls : List TrampolineCall :=
  [.create 1 2 3 false, .create 4 5 6 true, .free 0x80000000, .create 7 8 9 false,
   .create 10 11 12 false]

/-- A mode-to-control-word table: the default word with the mode's two low
bits in the rounding-control field. -/
def scenarioTable (mode : Nat) : Nat := DEFAULT_FPU_MXCSR ||| ((mode % 4) <<< 13)

end xe.cpu.backend.x64

namespace xe.kernel.xam

/-! ## Content API shims of `xam_content.cc`

The kernel headers the file includes (`xenia/xbox.h`, the content manager,
the kernel state) are not part of the source tree at hand; their constants,
macros and methods are parameters of the embedding.  Guest pointers are
32-bit addresses, null being 0.  Debug assertions are not modelled. -/

/-- The struct `XCONTENT_AGGREGATE_DATA`: `content_type` is the only member
`xam_content.cc` reads; the remaining members are kept as one value. -/
structure XCONTENT_AGGREGATE_DATA where
  content_type : Nat
  other_members : Nat
deriving DecidableEq, Repr

/-- The constants, macros and struct sizes of `xenia/xbox.h` that
`xam_content.cc` uses, as parameters: the `X_ERROR_*` result codes, the
macros `XSUCCEEDED` and `X_HRESULT_FROM_WIN32`, the sizes of `XCONTENT_DATA`
and `XCONTENT_AGGREGATE_DATA`, and two values of `XContentType`. -/
structure Xbox where
  X_ERROR_SUCCESS : Nat
  X_ERROR_INVALID_PARAMETER : Nat
  X_ERROR_ALREADY_EXISTS : Nat
  X_ERROR_PATH_NOT_FOUND : Nat
  X_ERROR_FUNCTION_FAILED : Nat
  X_ERROR_IO_PENDING : Nat
  X_ERROR_INSUFFICIENT_BUFFER : Nat
  X_ERROR_NO_SUCH_USER : Nat
  XSUCCEEDED : Nat → Bool
  X_HRESULT_FROM_WIN32 : Nat → Nat
  sizeof_XCONTENT_DATA : Nat
  sizeof_XCONTENT_AGGREGATE_DATA : Nat
  kSavedGame : Nat
  kMarketplaceContent : Nat

/-- The methods of the content manager that `xam_content.cc` calls, as
parameters over a manager state `σ`; every method may change the state. -/
structure ContentManager (σ : Type) where
  ContentExists : σ → XCONTENT_AGGREGATE_DATA → σ × Bool
  DeleteContent : σ → XCONTENT_AGGREGATE_DATA → σ × Nat
  CreateContent : σ → String → XCONTENT_AGGREGATE_DATA → σ × Nat
  OpenContent : σ → String → XCONTENT_AGGREGATE_DATA → σ × Nat
  WriteContentHeaderFile : σ → XCONTENT_AGGREGATE_DATA → σ
  GetContentThumbnail : σ → XCONTENT_AGGREGATE_DATA → σ × Nat × List Nat

/-- The queries on the kernel state that `XamContentGetCreator` makes. -/
structure KernelState where
  IsUserSignedIn : Nat → Bool
  user_profile_xuid : Nat → Nat

/-- Reads of guest memory: a dword, and the content data behind a pointer
read as `XCONTENT_DATA` (converted to the aggregate form) or as
`XCONTENT_AGGREGATE_DATA`. -/
structure GuestMemory where
  dword : Nat → Nat
  as_XCONTENT_DATA : Nat → XCONTENT_AGGREGATE_DATA
  as_XCONTENT_AGGREGATE_DATA : Nat → XCONTENT_AGGREGATE_DATA

/-- One store to guest memory: a 32-bit value, a 64-bit value, or a block of
bytes copied by `memcpy`. -/
inductive GuestWrite where
  | dword (address value : Nat)
  | qword (address value : Nat)
  | bytes (address : Nat) (data : List Nat)
deriving DecidableEq, Repr

/-- The content-manager methods, as entries of a call log. -/
inductive ManagerCall where
  | ContentExists
  | DeleteContent
  | CreateContent
  | OpenContent
  | WriteContentHeaderFile
  | GetContentThumbnail
deriving DecidableEq, Repr

/-- The enum `kDispositionState`. -/
inductive kDispositionState where
  | Unknown
  | Create
  | Open
deriving DecidableEq, Repr

/-- The enumerator values: `Unknown = 0, Create = 1, Open = 2`. -/
def kDispositionState.toUInt32 : kDispositionState → Nat
  | .Unknown => 0
  | .Create => 1
  | .Open => 2

/-- The conversion `static_cast<uint32_t>` of a 32-bit signed cvar. -/
def static_cast_uint32 (v : Int) : Nat := (v % 2 ^ 32).toNat

/-- The locals of the `run` lambda after its create/open step: the manager
state, the manager calls made so far, `result` and `disposition`. -/
structure CreateOrOpen (σ : Type) where
  manager : σ
  calls : List ManagerCall
  result : Nat
  disposition : kDispositionState

/-- The `switch (flags & 0xF)` of the `run` lambda of `xeXamContentCreate`;
`result` starts as `X_ERROR_INVALID_PARAMETER` and `disposition` as
`Unknown`. -/
def xeXamContentCreate.modeSwitch {σ : Type} (x : Xbox) (cm : ContentManager σ) (flags : Nat)
    (content_data : XCONTENT_AGGREGATE_DATA) (s : σ) : CreateOrOpen σ :=
  match flags &&& 0xF with
  | 1 =>
    let e := cm.ContentExists s content_data
    if e.2 then ⟨e.1, [.ContentExists], x.X_ERROR_ALREADY_EXISTS, .Unknown⟩
    else ⟨e.1, [.ContentExists], x.X_ERROR_INVALID_PARAMETER, .Create⟩
  | 2 =>
    let e := cm.ContentExists s content_data
    if e.2 then
      ⟨(cm.DeleteContent e.1 content_data).1, [.ContentExists, .DeleteContent],
        x.X_ERROR_INVALID_PARAMETER, .Create⟩
    else ⟨e.1, [.ContentExists], x.X_ERROR_INVALID_PARAMETER, .Create⟩
  | 3 =>
    let e := cm.ContentExists s content_data
    if !e.2 then ⟨e.1, [.ContentExists], x.X_ERROR_PATH_NOT_FOUND, .Unknown⟩
    else ⟨e.1, [.ContentExists], x.X_ERROR_INVALID_PARAMETER, .Open⟩
  | 4 =>
    let e := cm.ContentExists s content_data
    if !e.2 then ⟨e.1, [.ContentExists], x.X_ERROR_INVALID_PARAMETER, .Create⟩
    else ⟨e.1, [.ContentExists], x.X_ERROR_INVALID_PARAMETER, .Open⟩
  | 5 =>
    let e := cm.ContentExists s content_data
    if !e.2 then ⟨e.1, [.ContentExists], x.X_ERROR_PATH_NOT_FOUND, .Unknown⟩
    else
      ⟨(cm.DeleteContent e.1 content_data).1, [.ContentExists, .DeleteContent],
        x.X_ERROR_INVALID_PARAMETER, .Create⟩
  | _ => ⟨s, [], x.X_ERROR_INVALID_PARAMETER, .Unknown⟩

/-- The create/open step of the `run` lambda: the mode switch, then
`CreateContent` (and `WriteContentHeaderFile` when it succeeded) for
disposition `Create`, `OpenContent` for disposition `Open`. -/
def xeXamContentCreate.createOrOpen {σ : Type} (x : Xbox) (cm : ContentManager σ)
    (root_name : String) (flags : Nat) (content_data : XCONTENT_AGGREGATE_DATA) (s : σ) :
    CreateOrOpen σ :=
  let sw := xeXamContentCreate.modeSwitch x cm flags content_data s
  match sw.disposition with
  | .Create =>
    let c := cm.CreateContent sw.manager root_name content_data
    if x.XSUCCEEDED c.2 then
      ⟨cm.WriteContentHeaderFile c.1 content_data,
        sw.calls ++ [.CreateContent, .WriteContentHeaderFile], c.2, .Create⟩
    else ⟨c.1, sw.calls ++ [.CreateContent], c.2, .Create⟩
  | .Open =>
    let o := cm.OpenContent sw.manager root_name content_data
    ⟨o.1, sw.calls ++ [.OpenContent], o.2, .Open⟩
  | .Unknown => sw

/-- The license-mask block of the `run` lambda: with a non-null pointer and
a result satisfying `XSUCCEEDED`, store 0, and for marketplace content store
the `license_mask` cvar over it. -/
def xeXamContentCreate.licenseMaskWrites (x : Xbox) (license_mask : Int)
    (license_mask_ptr result : Nat) (content_data : XCONTENT_AGGREGATE_DATA) :
    List GuestWrite :=
  if license_mask_ptr ≠ 0 ∧ x.XSUCCEEDED result = true then
    if content_data.content_type = x.kMarketplaceContent then
      [.dword license_mask_ptr 0, .dword license_mask_ptr (static_cast_uint32 license_mask)]
    else [.dword license_mask_ptr 0]
  else []

/-- What one execution of the `run` lambda produces: the returned result,
the two reference outputs, the manager state and calls, and the stores to
guest memory in program order. -/
structure RunOutcome (σ : Type) where
  result : Nat
  extended_error : Nat
  length : Nat
  manager : σ
  calls : List ManagerCall
  writes : List GuestWrite

/-- The `run` lambda of `xeXamContentCreate`. -/
def xeXamContentCreate.run {σ : Type} (x : Xbox) (cm : ContentManager σ) (license_mask : Int)
    (root_name : String) (flags : Nat) (content_data : XCONTENT_AGGREGATE_DATA)
    (disposition_ptr license_mask_ptr overlapped_ptr : Nat) (s : σ) : RunOutcome σ :=
  let co := xeXamContentCreate.createOrOpen x cm root_name flags content_data s
  { result :=
      if co.result ≠ 0 ∧ overlapped_ptr ≠ 0 then x.X_ERROR_FUNCTION_FAILED else co.result
    extended_error := x.X_HRESULT_FROM_WIN32 co.result
    length := co.disposition.toUInt32
    manager := co.manager
    calls := co.calls
    writes :=
      xeXamContentCreate.licenseMaskWrites x license_mask license_mask_ptr co.result content_data
        ++ (if disposition_ptr ≠ 0 then [.dword disposition_ptr co.disposition.toUInt32]
            else []) }

/-- What a call of `xeXamContentCreate` produces: the returned value, the
manager state and calls, the stores to guest memory, and for an overlapped
call the work handed to `CompleteOverlappedDeferredEx`. -/
structure CreateOutcome (σ : Type) where
  returned : Nat
  manager : σ
  calls : List ManagerCall
  writes : List GuestWrite
  deferred : Option (σ → RunOutcome σ)

/-- The copy of the content data at the head of `xeXamContentCreate`, for an
accepted `content_data_size`: read as `XCONTENT_DATA` or as
`XCONTENT_AGGREGATE_DATA` according to the size. -/
def readContentData (x : Xbox) (mem : GuestMemory) (content_data_ptr content_data_size : Nat) :
    XCONTENT_AGGREGATE_DATA :=
  if content_data_size = x.sizeof_XCONTENT_DATA then mem.as_XCONTENT_DATA content_data_ptr
  else mem.as_XCONTENT_AGGREGATE_DATA content_data_ptr

/-- The function `xeXamContentCreate`. -/
def xeXamContentCreate {σ : Type} (x : Xbox) (mem : GuestMemory) (cm : ContentManager σ)
    (license_mask : Int) (s : σ) (_user_index : Nat) (root_name : String)
    (content_data_ptr content_data_size flags disposition_ptr license_mask_ptr : Nat)
    (_cache_size _content_size overlapped_ptr : Nat) : CreateOutcome σ :=
  if content_data_size = x.sizeof_XCONTENT_DATA ∨
      content_data_size = x.sizeof_XCONTENT_AGGREGATE_DATA then
    let content_data := readContentData x mem content_data_ptr content_data_size
    if overlapped_ptr = 0 then
      let r := xeXamContentCreate.run x cm license_mask root_name flags content_data
        disposition_ptr license_mask_ptr overlapped_ptr s
      { returned := r.result, manager := r.manager, calls := r.calls, writes := r.writes,
        deferred := none }
    else
      { returned := x.X_ERROR_IO_PENDING, manager := s, calls := [],
        writes := if disposition_ptr ≠ 0 then [.dword disposition_ptr 0] else [],
        deferred := some (xeXamContentCreate.run x cm license_mask root_name flags content_data
          disposition_ptr license_mask_ptr overlapped_ptr) }
  else
    { returned := x.X_ERROR_INVALID_PARAMETER, manager := s, calls := [], writes := [],
      deferred := none }

/-- What a call of one of the other content entry points produces: the
returned value, the manager state and calls, the stores to guest memory,
and the `(overlapped_ptr, result)` given to `CompleteOverlappedImmediate`
when the call is overlapped. -/
structure EntryOutcome (σ : Type) where
  returned : Nat
  manager : σ
  calls : List ManagerCall
  writes : List GuestWrite
  completed : Option (Nat × Nat)

/-- The common tail of the entry points: an overlapped call completes the
overlapped with `result` and returns `X_ERROR_IO_PENDING`, a synchronous one
returns `result`. -/
def finishEntry {σ : Type} (x : Xbox) (overlapped_ptr result : Nat) (manager : σ)
    (calls : List ManagerCall) (writes : List GuestWrite) : EntryOutcome σ :=
  if overlapped_ptr ≠ 0 then
    { returned := x.X_ERROR_IO_PENDING, manager := manager, calls := calls, writes := writes,
      completed := some (overlapped_ptr, result) }
  else
    { returned := result, manager := manager, calls := calls, writes := writes,
      completed := none }

/-- The result an entry point reports: the value given to the overlapped
when the call is overlapped, the returned value otherwise. -/
def EntryOutcome.status {σ : Type} (o : EntryOutcome σ) : Nat :=
  match o.completed with
  | some c => c.2
  | none => o.returned

/-- The function `XamContentGetCreator_entry`. -/
def XamContentGetCreator_entry {σ : Type} (x : Xbox) (mem : GuestMemory) (ks : KernelState)
    (cm : ContentManager σ) (s : σ)
    (user_index content_data_ptr is_creator_ptr creator_xuid_ptr overlapped_ptr : Nat) :
    EntryOutcome σ :=
  let content_data := mem.as_XCONTENT_DATA content_data_ptr
  let content_exists := cm.ContentExists s content_data
  let body : Nat × List GuestWrite :=
    if content_exists.2 then
      if content_data.content_type = x.kSavedGame then
        if creator_xuid_ptr ≠ 0 then
          if ks.IsUserSignedIn user_index then
            (x.X_ERROR_SUCCESS,
              [.dword is_creator_ptr 1,
               .qword creator_xuid_ptr (ks.user_profile_xuid user_index)])
          else (x.X_ERROR_NO_SUCH_USER, [.dword is_creator_ptr 1])
        else (x.X_ERROR_SUCCESS, [.dword is_creator_ptr 1])
      else
        (x.X_ERROR_SUCCESS,
          .dword is_creator_ptr 0 ::
            (if creator_xuid_ptr ≠ 0 then [.qword creator_xuid_ptr 0] else []))
    else (x.X_ERROR_PATH_NOT_FOUND, [])
  finishEntry x overlapped_ptr body.1 content_exists.1 [.ContentExists] body.2

/-- The function `XamContentGetThumbnail_entry`. -/
def XamContentGetThumbnail_entry {σ : Type} (x : Xbox) (mem : GuestMemory)
    (cm : ContentManager σ) (s : σ)
    (_user_index content_data_ptr buffer_ptr buffer_size_ptr overlapped_ptr : Nat) :
    EntryOutcome σ :=
  let buffer_size := mem.dword buffer_size_ptr
  let content_data := mem.as_XCONTENT_DATA content_data_ptr
  let thumbnail := cm.GetContentThumbnail s content_data
  let buffer := thumbnail.2.2
  let size_write := GuestWrite.dword buffer_size_ptr (buffer.length % 2 ^ 32)
  let body : Nat × List GuestWrite :=
    if x.XSUCCEEDED thumbnail.2.1 then
      if buffer_ptr ≠ 0 then
        if buffer_size < buffer.length then (x.X_ERROR_INSUFFICIENT_BUFFER, [])
        else (thumbnail.2.1, [.bytes buffer_ptr buffer])
      else (thumbnail.2.1, [])
    else (thumbnail.2.1, [])
  finishEntry x overlapped_ptr body.1 thumbnail.1 [.GetContentThumbnail] (size_write :: body.2)

/-! ## Reference outcomes and sample inputs -/

/-- The outcome table of the creation modes, written from the claim's words:
status and disposition as a function of `mode` and of whether the content
exists, the manager calls being threaded through the manager state. -/
def createModeTable {σ : Type} (x : Xbox) (cm : ContentManager σ) (root_name : String)
    (content_data : XCONTENT_AGGREGATE_DATA) (s : σ) (mode : Nat) : Nat × Nat :=
  let e := (cm.ContentExists s content_data).2
  let s1 := (cm.ContentExists s content_data).1
  let deleted := (cm.DeleteContent s1 content_data).1
  if mode = 1 then
    if e then (x.X_ERROR_ALREADY_EXISTS, 0)
    else ((cm.CreateContent s1 root_name content_data).2, 1)
  else if mode = 2 then
    if e then ((cm.CreateContent deleted root_name content_data).2, 1)
    else ((cm.CreateContent s1 root_name content_data).2, 1)
  else if mode = 3 then
    if e then ((cm.OpenContent s1 root_name content_data).2, 2)
    else (x.X_ERROR_PATH_NOT_FOUND, 0)
  else if mode = 4 then
    if e then ((cm.OpenContent s1 root_name content_data).2, 2)
    else ((cm.CreateContent s1 root_name content_data).2, 1)
  else if mode = 5 then
    if e then ((cm.CreateContent deleted root_name content_data).2, 1)
    else (x.X_ERROR_PATH_NOT_FOUND, 0)
  else (x.X_ERROR_INVALID_PARAMETER, 0)

/-- The value of the last 32-bit store to an address in a list of stores in
program order, `none` when there is no such store. -/
def lastDwordStore (writes : List GuestWrite) (address : Nat) : Option Nat :=
  writes.foldl
    (fun acc w =>
      match w with
      | .dword a v => if a = address then some v else acc
      | _ => acc)
    none

/-- Sample values for the header's parameters: the Win32 numbers of the
result codes, `XSUCCEEDED` in the form used for status values, a test that
the two top bits are clear (`(s & 0xC0000000) == 0`), and sample sizes and
content types. -/
def sampleXbox : Xbox :=
  { X_ERROR_SUCCESS := 0
    X_ERROR_INVALID_PARAMETER := 87
    X_ERROR_ALREADY_EXISTS := 183
    X_ERROR_PATH_NOT_FOUND := 3
    X_ERROR_FUNCTION_FAILED := 1627
    X_ERROR_IO_PENDING := 997
    X_ERROR_INSUFFICIENT_BUFFER := 122
    X_ERROR_NO_SUCH_USER := 1317
    XSUCCEEDED := fun r => decide (r &&& 0xC0000000 = 0)
    X_HRESULT_FROM_WIN32 := fun r => if r = 0 then 0 else (r &&& 0xFFFF) ||| 0x80070000
    sizeof_XCONTENT_DATA := 308
    sizeof_XCONTENT_AGGREGATE_DATA := 328
    kSavedGame := 1
    kMarketplaceContent := 2 }

/-- A sample guest memory: every dword reads 16, every content pointer
holds a saved game when read as `XCONTENT_DATA` and marketplace content when
read as `XCONTENT_AGGREGATE_DATA`. -/
def sampleMemory : GuestMemory :=
  { dword := fun _ => 16
    as_XCONTENT_DATA := fun p => ⟨1, p⟩
    as_XCONTENT_AGGREGATE_DATA := fun p => ⟨2, p⟩ }

/-- A sample content manager whose state is the list of existing contents;
creating fails with code 5 for root name `"full"`, and every thumbnail is
the three bytes 1, 2, 3. -/
def sampleManager : ContentManager (List XCONTENT_AGGREGATE_DATA) :=
  { ContentExists := fun s d => (s, decide (d ∈ s))
    DeleteContent := fun s d => (s.erase d, 0)
    CreateContent := fun s root d => if root = "full" then (s, 5) else (d :: s, 0)
    OpenContent := fun s _ _ => (s, 0)
    WriteContentHeaderFile := fun s _ => s
    GetContentThumbnail := fun s _ => (s, 0, [1, 2, 3]) }

/-- A content manager without state whose thumbnail has `2 ^ 32` bytes. -/
def hugeThumbnailManager : ContentManager Unit :=
  { ContentExists := fun s _ => (s, true)
    DeleteContent := fun s _ => (s, 0)
    CreateContent := fun s _ _ => (s, 0)
    OpenContent := fun s _ _ => (s, 0)
    WriteContentHeaderFile := fun s _ => s
    GetContentThumbnail := fun s _ => (s, 0, List.replicate (2 ^ 32) 0) }

/-- A synchronous CREATE_NEW (`flags = 1`) of the marketplace content at
`0x100`, which the manager already holds, with the `license_mask` cvar at
-1, `disposition_ptr = 0x200` and `license_mask_ptr = 0x204`. -/
def failedCreateNew : CreateOutcome (List XCONTENT_AGGREGATE_DATA) :=
  xeXamContentCreate sampleXbox sampleMemory sampleManager (-1) [⟨2, 0x100⟩] 0 "dlc" 0x100
    328 1 0x200 0x204 0 0 0

/-- A sample kernel state: user 0 is signed in with xuid `0xB13EBABEBABEBABE`,
nobody else is. -/
def sampleKernelState : KernelState :=
  { IsUserSignedIn := fun i => decide (i = 0)
    user_profile_xuid := fun _ => 0xB13EBABEBABEBABE }

end xe.kernel.xam

namespace xe.cpu.backend.x64

/-! ## Lemmas on the reservation bitmap -/

theorem ReserveHelper.test_set_self (r : ReserveHelper) (w : Fin (RESERVE_NUM_ENTRIES / 64))
    (b : Nat) : (r.set w b).test w b = true := by
  simp [ReserveHelper.test, ReserveHelper.set, Nat.one_shiftLeft, Nat.testBit_two_pow_self]

theorem ReserveHelper.test_clear_self (r : ReserveHelper) (w : Fin (RESERVE_NUM_ENTRIES / 64))
    (b : Nat) (hb : b < 64) : (r.clear w b).test w b = false := by
  have hmask : Nat.testBit (2 ^ 64 - 1) b = true := by
    rw [Nat.testBit_two_pow_sub_one]
    exact decide_eq_true hb
  show (Function.update r.blocks w (r.blocks w &&& ((2 ^ 64 - 1) ^^^ (1 <<< b))) w).testBit b
    = false
  rw [Function.update_same, Nat.testBit_and, Nat.testBit_xor, hmask, Nat.one_shiftLeft,
    Nat.testBit_two_pow_self]
  simp

theorem reserveBit_lt (address : Nat) : reserveBit address < 64 := by
  unfold reserveBit
  omega

theorem reserveBlock_eq_of_lt {a : Nat} (h : a < 2 ^ 32) :
    reserveBlock a = a >>> RESERVE_BLOCK_SHIFT := by
  unfold reserveBlock
  rw [Nat.mod_eq_of_lt h]

/-! ## The reservation protocol -/

/-- C1: for all guest addresses A and B in the same reservation block (same
value of address >> 16) and every machine state, Reserve(A) by thread `t1`
followed immediately by an ordinary write to B by any thread `t2` (B may
differ from A) makes the reserving thread's StoreConditional(A, v) report
failure and leave the machine, in particular the memory at A, unchanged. -/
theorem store_conditional_fails_after_write (m : Machine) (t1 t2 A B w v : Nat)
    (hA : A < 2 ^ 32) (hB : B < 2 ^ 32)
    (hblock : A >>> RESERVE_BLOCK_SHIFT = B >>> RESERVE_BLOCK_SHIFT) :
    StoreConditional (OrdinaryStore (Reserve m t1 A).1 t2 B w) t1 A v
      = (OrdinaryStore (Reserve m t1 A).1 t2 B w, false) ∧
    (StoreConditional (OrdinaryStore (Reserve m t1 A).1 t2 B w) t1 A v).1.memory A
      = (OrdinaryStore (Reserve m t1 A).1 t2 B w).memory A := by
  have hb : reserveBlock A = reserveBlock B := by
    rw [reserveBlock_eq_of_lt hA, reserveBlock_eq_of_lt hB, hblock]
  have hw : reserveWord B = reserveWord A := by
    apply Fin.ext
    simp [reserveWord, hb]
  have hbit : reserveBit B = reserveBit A := by
    simp [reserveBit, hb]
  have hfail : StoreConditional (OrdinaryStore (Reserve m t1 A).1 t2 B w) t1 A v
      = (OrdinaryStore (Reserve m t1 A).1 t2 B w, false) := by
    unfold StoreConditional
    have hclr : (OrdinaryStore (Reserve m t1 A).1 t2 B w).reserve_helper_.test
        (reserveWord A) (reserveBit A) = false := by
      simp only [OrdinaryStore, hw, hbit]
      exact ReserveHelper.test_clear_self _ _ _ (reserveBit_lt A)
    simp [hclr]
  exact ⟨hfail, by rw [hfail]⟩

/-- The end-to-end scenario: thread 1 reserves `0x1000` and reads 5, thread 2
writes `0x1008` in the same block, and thread 1's StoreConditional of 6 to
`0x1000` fails with the memory there still 5. -/
theorem store_conditional_fails_after_write_witness :
    (0x1000 : Nat) < 2 ^ 32 ∧ (0x1008 : Nat) < 2 ^ 32 ∧
    (0x1000 : Nat) >>> RESERVE_BLOCK_SHIFT = 0x1008 >>> RESERVE_BLOCK_SHIFT ∧
    (Reserve scenarioMachine 1 0x1000).2 = 5 ∧
    (StoreConditional (OrdinaryStore (Reserve scenarioMachine 1 0x1000).1 2 0x1008 7)
      1 0x1000 6).2 = false ∧
    (StoreConditional (OrdinaryStore (Reserve scenarioMachine 1 0x1000).1 2 0x1008 7)
      1 0x1000 6).1.memory 0x1000 = 5 :=
  ⟨by decide, by decide, by decide, by decide,
   congrArg Prod.snd (store_conditional_fails_after_write scenarioMachine 1 2 0x1000 0x1008 7 6
     (by decide) (by decide) (by decide)).1,
   (store_conditional_fails_after_write scenarioMachine 1 2 0x1000 0x1008 7 6
     (by decide) (by decide) (by decide)).2.trans (by decide)⟩

/-- C2: for every guest address A and every machine state, Reserve(A)
followed immediately by StoreConditional(A, v) succeeds: it reports
success, the store is performed (memory at A is v, every other address is
untouched) and the block's bit is cleared; a second StoreConditional(A)
with no Reserve in between reports failure and changes nothing. -/
theorem reserve_enables_exactly_one_store_conditional (m : Machine) (t A v v2 : Nat) :
    (StoreConditional (Reserve m t A).1 t A v).2 = true ∧
    (StoreConditional (Reserve m t A).1 t A v).1.memory A = v ∧
    (∀ a, a ≠ A → (StoreConditional (Reserve m t A).1 t A v).1.memory a = m.memory a) ∧
    (StoreConditional (Reserve m t A).1 t A v).1.reserve_helper_.test
      (reserveWord A) (reserveBit A) = false ∧
    StoreConditional (StoreConditional (Reserve m t A).1 t A v).1 t A v2
      = ((StoreConditional (Reserve m t A).1 t A v).1, false) := by
  have hset : (Reserve m t A).1.reserve_helper_.test (reserveWord A) (reserveBit A) = true :=
    ReserveHelper.test_set_self _ _ _
  have hoff : ((Reserve m t A).1.contexts t).cached_reserve_offset = 8 * (reserveWord A).val := by
    simp [Reserve]
  have hbit : ((Reserve m t A).1.contexts t).cached_reserve_bit = reserveBit A := by
    simp [Reserve]
  have hfirst : StoreConditional (Reserve m t A).1 t A v =
      ({ (Reserve m t A).1 with
          reserve_helper_ := (Reserve m t A).1.reserve_helper_.clear (reserveWord A) (reserveBit A)
          memory := Function.update (Reserve m t A).1.memory A v }, true) := by
    unfold StoreConditional
    simp only [hoff, hbit, hset, and_self, if_true]
  have hclr : (StoreConditional (Reserve m t A).1 t A v).1.reserve_helper_.test
      (reserveWord A) (reserveBit A) = false := by
    rw [hfirst]
    exact ReserveHelper.test_clear_self _ _ _ (reserveBit_lt A)
  refine ⟨by rw [hfirst], by rw [hfirst]; simp, ?_, hclr, ?_⟩
  · intro a ha
    rw [hfirst]
    simp [Reserve, Function.update_noteq ha]
  · generalize StoreConditional (Reserve m t A).1 t A v = r at hclr
    unfold StoreConditional
    simp [hclr]

/-- On the scenario machine a reserve of `0x1000` lets one StoreConditional
through (memory becomes 6) and the next one fails (memory stays 6). -/
theorem reserve_enables_exactly_one_store_conditional_witness :
    (StoreConditional (Reserve scenarioMachine 1 0x1000).1 1 0x1000 6).2 = true ∧
    (StoreConditional (Reserve scenarioMachine 1 0x1000).1 1 0x1000 6).1.memory 0x1000 = 6 ∧
    (StoreConditional (StoreConditional (Reserve scenarioMachine 1 0x1000).1 1 0x1000 6).1
      1 0x1000 8).2 = false ∧
    (StoreConditional (StoreConditional (Reserve scenarioMachine 1 0x1000).1 1 0x1000 6).1
      1 0x1000 8).1.memory 0x1000 = 6 :=
  ⟨(reserve_enables_exactly_one_store_conditional scenarioMachine 1 0x1000 6 8).1,
   (reserve_enables_exactly_one_store_conditional scenarioMachine 1 0x1000 6 8).2.1,
   congrArg Prod.snd (reserve_enables_exactly_one_store_conditional scenarioMachine 1 0x1000 6 8).2.2.2.2,
   (congrArg (fun r => r.1.memory 0x1000)
      (reserve_enables_exactly_one_store_conditional scenarioMachine 1 0x1000 6 8).2.2.2.2).trans
     (reserve_enables_exactly_one_store_conditional scenarioMachine 1 0x1000 6 8).2.1⟩

/-! ## The trampoline allocator -/

theorem BitMap.firstFree_some {n : Nat} (b : BitMap n) :
    ∀ fuel i k, b.firstFree fuel i = some k → b.bits k = false := by
  intro fuel
  induction fuel with
  | zero => intro i k h; simp [BitMap.firstFree] at h
  | succ fuel ih =>
    intro i k h
    unfold BitMap.firstFree at h
    by_cases hi : i < n
    · simp only [hi, dif_pos] at h
      by_cases hb : b.bits ⟨i, hi⟩ = true
      · simp only [hb, if_true] at h
        exact ih _ _ h
      · rw [if_neg hb, Option.some.injEq] at h
        subst h
        simpa using hb
    · simp [hi] at h

theorem BitMap.firstFree_full {n : Nat} (b : BitMap n) (hfull : ∀ i, b.bits i = true) :
    ∀ fuel i, b.firstFree fuel i = none := by
  intro fuel
  induction fuel with
  | zero => intro i; rfl
  | succ fuel ih =>
    intro i
    unfold BitMap.firstFree
    by_cases hi : i < n
    · simp only [hi, dif_pos, hfull, if_true]
      exact ih _
    · simp [hi]

theorem BitMap.Acquire_full {n : Nat} (b : BitMap n) (hfull : ∀ i, b.bits i = true) :
    b.Acquire = (b, none) := by
  unfold BitMap.Acquire
  rw [BitMap.firstFree_full b hfull]

theorem BitMap.Acquire_some {n : Nat} (b bm : BitMap n) (i : Fin n)
    (h : b.Acquire = (bm, some i)) :
    b.bits i = false ∧ bm.bits = Function.update b.bits i true := by
  unfold BitMap.Acquire at h
  cases hf : b.firstFree n 0 with
  | none => rw [hf] at h; simp at h
  | some k =>
    rw [hf] at h
    simp only [Prod.mk.injEq, Option.some.injEq] at h
    obtain ⟨h1, h2⟩ := h
    subst h2
    exact ⟨BitMap.firstFree_some b _ _ _ hf, by rw [← h1]⟩

theorem trampolineSlot_slot_address (i : Fin MAX_GUEST_TRAMPOLINES) :
    trampolineSlot (GUEST_TRAMPOLINE_BASE + i.val * GUEST_TRAMPOLINE_MIN_LEN) = some i := by
  have hi : i.val < 32768 := by
    have h1 : i.val < MAX_GUEST_TRAMPOLINES := i.isLt
    have h2 : MAX_GUEST_TRAMPOLINES = 32768 := by decide
    omega
  have hr : GUEST_TRAMPOLINE_BASE ≤ GUEST_TRAMPOLINE_BASE + i.val * GUEST_TRAMPOLINE_MIN_LEN ∧
      GUEST_TRAMPOLINE_BASE + i.val * GUEST_TRAMPOLINE_MIN_LEN < GUEST_TRAMPOLINE_END := by
    simp only [GUEST_TRAMPOLINE_BASE, GUEST_TRAMPOLINE_END, GUEST_TRAMPOLINE_MIN_LEN]
    omega
  unfold trampolineSlot
  rw [dif_pos hr]
  congr 1
  apply Fin.ext
  simp only [GUEST_TRAMPOLINE_BASE, GUEST_TRAMPOLINE_MIN_LEN]
  omega

theorem X64Backend.CreateGuestTrampoline_full (b : X64Backend)
    (hfull : ∀ i, b.guest_trampoline_address_bitmap_.bits i = true)
    (proc userdata1 userdata2 : Nat) (long_term : Bool) :
    b.CreateGuestTrampoline proc userdata1 userdata2 long_term
      = (b, .error .ResourceExhausted) := by
  unfold X64Backend.CreateGuestTrampoline
  rw [BitMap.Acquire_full _ hfull]

theorem TrampolineRun.consistent_step (r : TrampolineRun) (call : TrampolineCall)
    (h : r.consistent) : (r.step call).consistent := by
  obtain ⟨hnd, hal⟩ := h
  cases call with
  | create proc userdata1 userdata2 long_term =>
    unfold TrampolineRun.step X64Backend.CreateGuestTrampoline
    cases hacq : r.backend.guest_trampoline_address_bitmap_.Acquire with
    | mk bm res =>
      cases res with
      | none => exact ⟨hnd, hal⟩
      | some i =>
        obtain ⟨hfree, hbm⟩ := BitMap.Acquire_some _ _ _ hacq
        refine ⟨?_, ?_⟩
        · show (_ :: r.allocated).Nodup
          rw [List.nodup_cons]
          refine ⟨?_, hnd⟩
          intro hmem
          obtain ⟨k, hk, hbit⟩ := hal _ hmem
          have hki : k = i := by
            apply Fin.ext
            simp only [GUEST_TRAMPOLINE_MIN_LEN] at hk
            omega
          rw [hki, hfree] at hbit
          cases hbit
        · intro a ha
          have ha2 : a ∈ (GUEST_TRAMPOLINE_BASE + i.val * GUEST_TRAMPOLINE_MIN_LEN) ::
              r.allocated := ha
          rw [List.mem_cons] at ha2
          show ∃ k : Fin MAX_GUEST_TRAMPOLINES, _ ∧ bm.bits k = true
          rw [hbm]
          rcases ha2 with ha2 | ha2
          · exact ⟨i, ha2, by simp⟩
          · obtain ⟨k, hk, hbit⟩ := hal _ ha2
            refine ⟨k, hk, ?_⟩
            by_cases hki : k = i
            · subst hki; simp
            · rw [Function.update_noteq hki]; exact hbit
  | free trampoline_addr =>
    unfold TrampolineRun.step
    refine ⟨hnd.filter _, ?_⟩
    intro a ha
    have ha2 := List.mem_filter.mp ha
    obtain ⟨k, hk, hbit⟩ := hal _ ha2.1
    refine ⟨k, hk, ?_⟩
    have hslot : trampolineSlot a = some k := by
      rw [hk]; exact trampolineSlot_slot_address k
    have hne : trampolineSlot a ≠ trampolineSlot trampoline_addr := by
      simpa using ha2.2
    show (r.backend.FreeGuestTrampoline trampoline_addr).guest_trampoline_address_bitmap_.bits k
      = true
    unfold X64Backend.FreeGuestTrampoline
    cases hs : trampolineSlot trampoline_addr with
    | none => exact hbit
    | some j =>
      have hkj : k ≠ j := by
        intro e
        apply hne
        rw [hslot, hs, e]
      show Function.update r.backend.guest_trampoline_address_bitmap_.bits j false k = true
      rw [Function.update_noteq hkj]
      exact hbit

theorem TrampolineRun.consistent_foldl (calls : List TrampolineCall) :
    ∀ r : TrampolineRun, r.consistent → (calls.foldl TrampolineRun.step r).consistent := by
  induction calls with
  | nil => intro r h; exact h
  | cons call rest ih =>
    intro r h
    rw [List.foldl_cons]
    exact ih _ (TrampolineRun.consistent_step r call h)

theorem TrampolineRun.consistent_run (calls : List TrampolineCall) :
    (TrampolineRun.run calls).consistent := by
  unfold TrampolineRun.run
  apply TrampolineRun.consistent_foldl
  exact ⟨List.nodup_nil, fun a ha => by cases ha⟩

/-- C3: after every sequence of CreateGuestTrampoline / FreeGuestTrampoline
calls on a fresh backend, the trampolines still allocated occupy pairwise
disjoint guest address ranges inside the trampoline range; and on every
backend whose slot bitmap is full, CreateGuestTrampoline fails with
ResourceExhausted and returns the backend, bitmap included, unchanged. -/
theorem trampolines_never_overlap (calls : List TrampolineCall) (b : X64Backend) :
    (TrampolineRun.run calls).allocated.Pairwise trampolinesDisjoint ∧
    (∀ a ∈ (TrampolineRun.run calls).allocated,
      GUEST_TRAMPOLINE_BASE ≤ a ∧ a + GUEST_TRAMPOLINE_MIN_LEN ≤ GUEST_TRAMPOLINE_END) ∧
    ((∀ i, b.guest_trampoline_address_bitmap_.bits i = true) →
      ∀ (proc userdata1 userdata2 : Nat) (long_term : Bool),
        b.CreateGuestTrampoline proc userdata1 userdata2 long_term
          = (b, .error .ResourceExhausted)) := by
  obtain ⟨hnd, hal⟩ := TrampolineRun.consistent_run calls
  refine ⟨?_, ?_, fun hfull proc u1 u2 lt =>
    X64Backend.CreateGuestTrampoline_full b hfull proc u1 u2 lt⟩
  · refine List.Pairwise.imp_of_mem ?_ hnd
    intro x y hx hy hxy
    obtain ⟨i, hi, _⟩ := hal x hx
    obtain ⟨j, hj, _⟩ := hal y hy
    unfold trampolinesDisjoint
    simp only [GUEST_TRAMPOLINE_MIN_LEN] at hi hj ⊢
    omega
  · intro a ha
    obtain ⟨i, hi, _⟩ := hal a ha
    have h1 : i.val < MAX_GUEST_TRAMPOLINES := i.isLt
    have h2 : MAX_GUEST_TRAMPOLINES = 32768 := by decide
    simp only [GUEST_TRAMPOLINE_BASE, GUEST_TRAMPOLINE_END, GUEST_TRAMPOLINE_MIN_LEN] at hi ⊢
    omega

/-- Five calls on a fresh backend leave three disjoint trampolines, the freed
first slot being handed out again; a create on the full backend is
refused and keeps the bitmap. -/
theorem trampolines_never_overlap_witness :
    (TrampolineRun.run scenarioCalls).allocated = [0x80000010, 0x80000000, 0x80000008] ∧
    (TrampolineRun.run scenarioCalls).allocated.Pairwise trampolinesDisjoint ∧
    (∀ i, fullBackend.guest_trampoline_address_bitmap_.bits i = true) ∧
    (fullBackend.CreateGuestTrampoline 1 2 3 false).2 = .error .ResourceExhausted ∧
    (fullBackend.CreateGuestTrampoline 1 2 3 false).1.guest_trampoline_address_bitmap_
      = fullBackend.guest_trampoline_address_bitmap_ :=
  ⟨by decide,
   (trampolines_never_overlap scenarioCalls fullBackend).1,
   fun _ => rfl,
   congrArg Prod.snd
     ((trampolines_never_overlap scenarioCalls fullBackend).2.2 (fun _ => rfl) 1 2 3 false),
   congrArg (fun r => r.1.guest_trampoline_address_bitmap_)
     ((trampolines_never_overlap scenarioCalls fullBackend).2.2 (fun _ => rfl) 1 2 3 false)⟩

/-! ## The stack correlation table -/

theorem lookupScan_none (sp : Nat → X64BackendStackpoint) (h : Nat) :
    ∀ n, lookupScan sp h n = none → ∀ k, k < n → ¬ (sp k).host_stack_ ≤ h := by
  intro n
  induction n with
  | zero => intro _ k hk; omega
  | succ n ih =>
    intro hnone k hk
    unfold lookupScan at hnone
    by_cases he : (sp n).host_stack_ ≤ h
    · simp only [he, if_true] at hnone
      split at hnone
      · cases hnone
      · split at hnone <;> cases hnone
    · simp only [he, if_false] at hnone
      by_cases hkn : k = n
      · subst hkn; exact he
      · exact ih hnone k (by omega)

theorem lookupScan_some (sp : Nat → X64BackendStackpoint) (h : Nat) :
    ∀ n r, lookupScan sp h n = some r →
      ∃ j, j < n ∧ r = sp j ∧ (sp j).host_stack_ ≤ h ∧
        ∀ k, k < n → (sp k).host_stack_ ≤ h → (sp k).host_stack_ ≤ (sp j).host_stack_ := by
  intro n
  induction n with
  | zero => intro r hr; simp [lookupScan] at hr
  | succ n ih =>
    intro r hr
    unfold lookupScan at hr
    by_cases he : (sp n).host_stack_ ≤ h
    · simp only [he, if_true] at hr
      cases hprev : lookupScan sp h n with
      | none =>
        rw [hprev] at hr
        simp only [Option.some.injEq] at hr
        refine ⟨n, by omega, hr.symm, he, ?_⟩
        intro k hk hkh
        by_cases hkn : k = n
        · subst hkn; exact Nat.le_refl _
        · exact absurd hkh (lookupScan_none sp h n hprev k (by omega))
      | some best =>
        rw [hprev] at hr
        obtain ⟨j, hj, hbest, hjh, hmax⟩ := ih best hprev
        by_cases hcmp : best.host_stack_ ≤ (sp n).host_stack_
        · simp only [hcmp, if_true, Option.some.injEq] at hr
          refine ⟨n, by omega, hr.symm, he, ?_⟩
          intro k hk hkh
          by_cases hkn : k = n
          · subst hkn; exact Nat.le_refl _
          · have := hmax k (by omega) hkh
            rw [hbest] at hcmp
            omega
        · simp only [hcmp, if_false, Option.some.injEq] at hr
          refine ⟨j, by omega, by rw [← hr]; exact hbest, hjh, ?_⟩
          intro k hk hkh
          by_cases hkn : k = n
          · subst hkn
            rw [hbest] at hcmp
            omega
          · exact hmax k (by omega) hkh
    · simp only [he, if_false] at hr
      obtain ⟨j, hj, hbest, hjh, hmax⟩ := ih r hr
      refine ⟨j, by omega, hbest, hjh, ?_⟩
      intro k hk hkh
      by_cases hkn : k = n
      · subst hkn; exact absurd hkh he
      · exact hmax k (by omega) hkh

theorem host_stack_strictAnti (sp : Nat → X64BackendStackpoint) (n : Nat)
    (hdec : ∀ k, k + 1 < n → (sp (k + 1)).host_stack_ < (sp k).host_stack_) :
    ∀ b, b < n → ∀ a, a < b → (sp b).host_stack_ < (sp a).host_stack_ := by
  intro b
  induction b with
  | zero => intro _ a ha; omega
  | succ b ih =>
    intro hb a ha
    have hstep := hdec b hb
    by_cases hab : a = b
    · subst hab; exact hstep
    · have := ih (by omega) a (by omega)
      omega

/-- C4: for every table with entries `[0, current_stackpoint_depth)` and
every `host_sp` lying between the host stack pointers of two consecutive
entries `i` and `i + 1`, Lookup(host_sp) returns a record of the table whose
host stack pointer is at most `host_sp` and is the greatest such among all
entries (the nearest record not exceeding the query); when the table is
strictly decreasing (nested frames on a downward-growing host stack) and
`host_sp` is below entry `i`, that record is the more recent entry
`i + 1`. -/
theorem lookup_returns_nearest_record_below (c : X64BackendContext) (i host_sp : Nat)
    (hi : i + 1 < c.current_stackpoint_depth)
    (hlo : min (c.stackpoints i).host_stack_ (c.stackpoints (i + 1)).host_stack_ ≤ host_sp)
    (hhi : host_sp ≤ max (c.stackpoints i).host_stack_ (c.stackpoints (i + 1)).host_stack_) :
    ∃ j, j < c.current_stackpoint_depth ∧
      Lookup c host_sp = some (c.stackpoints j) ∧
      (c.stackpoints j).host_stack_ ≤ host_sp ∧
      (∀ k, k < c.current_stackpoint_depth → (c.stackpoints k).host_stack_ ≤ host_sp →
        (c.stackpoints k).host_stack_ ≤ (c.stackpoints j).host_stack_) ∧
      ((∀ k, k + 1 < c.current_stackpoint_depth →
          (c.stackpoints (k + 1)).host_stack_ < (c.stackpoints k).host_stack_) →
        host_sp < (c.stackpoints i).host_stack_ → j = i + 1) := by
  have hex : ∃ k, k < c.current_stackpoint_depth ∧ (c.stackpoints k).host_stack_ ≤ host_sp := by
    rcases Nat.le_total (c.stackpoints i).host_stack_ (c.stackpoints (i + 1)).host_stack_ with h | h
    · rw [Nat.min_eq_left h] at hlo
      exact ⟨i, by omega, hlo⟩
    · rw [Nat.min_eq_right h] at hlo
      exact ⟨i + 1, hi, hlo⟩
  cases hres : lookupScan c.stackpoints host_sp c.current_stackpoint_depth with
  | none =>
    obtain ⟨k, hk, hkh⟩ := hex
    exact absurd hkh (lookupScan_none _ _ _ hres k hk)
  | some r =>
    obtain ⟨j, hj, hr, hjh, hmax⟩ := lookupScan_some _ _ _ r hres
    refine ⟨j, hj, by unfold Lookup; rw [hres, hr], hjh, hmax, ?_⟩
    intro hdec hlt
    have hanti := host_stack_strictAnti c.stackpoints c.current_stackpoint_depth hdec
    have hstep := hdec i hi
    have hlo2 : (c.stackpoints (i + 1)).host_stack_ ≤ host_sp := by
      rw [Nat.min_eq_right (Nat.le_of_lt hstep)] at hlo
      exact hlo
    have hge := hmax (i + 1) hi hlo2
    by_contra hne
    rcases Nat.lt_or_gt_of_ne hne with hlt2 | hgt2
    · by_cases hji : j = i
      · subst hji; omega
      · have := hanti i (by omega) j (by omega)
        omega
    · have := hanti j hj (i + 1) hgt2
      omega

/-- With frames at `0x7000`, `0x6000` and `0x5000`, a query of `0x5800` lies
between the last two and finds the innermost frame, at `0x5000`. -/
theorem lookup_returns_nearest_record_below_witness :
    1 + 1 < scenarioStackContext.current_stackpoint_depth ∧
    min (scenarioStackContext.stackpoints 1).host_stack_
      (scenarioStackContext.stackpoints (1 + 1)).host_stack_ ≤ 0x5800 ∧
    0x5800 ≤ max (scenarioStackContext.stackpoints 1).host_stack_
      (scenarioStackContext.stackpoints (1 + 1)).host_stack_ ∧
    Lookup scenarioStackContext 0x5800 = some ⟨0x5000, 0x100, 0x82000020⟩ := by
  refine ⟨by decide, by decide, by decide, ?_⟩
  obtain ⟨j, _, hl, _, _, hj⟩ := lookup_returns_nearest_record_below scenarioStackContext 1 0x5800
    (by decide) (by decide) (by decide)
  have hdec : ∀ k, k + 1 < scenarioStackContext.current_stackpoint_depth →
      (scenarioStackContext.stackpoints (k + 1)).host_stack_
        < (scenarioStackContext.stackpoints k).host_stack_ := by
    intro k hk
    have hk3 : k + 1 < 3 := hk
    have hk2 : k = 0 ∨ k = 1 := by omega
    rcases hk2 with rfl | rfl <;> decide
  rw [hl, hj hdec (by decide)]
  rfl

/-! ## The rounding-mode multiplexer -/

theorem loadedDomain_setLogicalWord (c : X64BackendContext) (w : Nat) (d : RoundingDomain) :
    loadedDomain (setLogicalWord c w d) = loadedDomain c := by
  cases d <;> rfl

theorem logicalWord_setLogicalWord_same (c : X64BackendContext) (w : Nat) (d : RoundingDomain) :
    logicalWord (setLogicalWord c w d) d = w := by
  cases d <;> rfl

theorem logicalWord_setLogicalWord_other (c : X64BackendContext) (w : Nat)
    {d e : RoundingDomain} (h : e ≠ d) :
    logicalWord (setLogicalWord c w e) d = logicalWord c d := by
  cases d <;> cases e <;> first | rfl | exact absurd rfl h

theorem testBit_flip_mode_bit (flags j : Nat) :
    (flags ^^^ (1 <<< kX64BackendMXCSRModeBit)).testBit j
      = if j = kX64BackendMXCSRModeBit then !flags.testBit j else flags.testBit j := by
  rw [Nat.testBit_xor, Nat.one_shiftLeft, Nat.testBit_two_pow]
  by_cases h : j = kX64BackendMXCSRModeBit
  · simp [h]
  · have h2 : ¬ kX64BackendMXCSRModeBit = j := fun e => h e.symm
    simp [h, h2]

theorem loadedDomain_EnsureDomain (s : RoundingState) (d : RoundingDomain) :
    loadedDomain (EnsureDomain s d).ctx = d := by
  unfold EnsureDomain
  by_cases h : loadedDomain s.ctx = d
  · simp [h]
  · simp only [h, if_false]
    unfold loadedDomain at h ⊢
    simp only [testBit_flip_mode_bit, if_true]
    cases hb : s.ctx.flags.testBit kX64BackendMXCSRModeBit
    · simp only [hb] at h
      cases d
      · exact absurd rfl h
      · simp
    · simp only [hb] at h
      cases d
      · simp
      · exact absurd rfl h

theorem logicalWord_EnsureDomain (s : RoundingState) (d e : RoundingDomain) :
    logicalWord (EnsureDomain s e).ctx d = logicalWord s.ctx d := by
  unfold EnsureDomain
  by_cases h : loadedDomain s.ctx = e
  · simp [h]
  · simp only [h, if_false]
    cases d <;> rfl

theorem RoundingState.holds_set (mxcsr_table : Nat → Nat) (s : RoundingState)
    (d : RoundingDomain) (mode : Nat) :
    (SetGuestRoundingMode mxcsr_table s d mode).holds d (mxcsr_table mode) := by
  unfold SetGuestRoundingMode RoundingState.holds
  by_cases h : loadedDomain s.ctx = d
  · simp [h, logicalWord_setLogicalWord_same]
  · simp [h, logicalWord_setLogicalWord_same, loadedDomain_setLogicalWord]

theorem RoundingState.holds_step (mxcsr_table : Nat → Nat) (s : RoundingState)
    (d : RoundingDomain) (w : Nat) (op : RoundingOp) (hop : op.setsDomain d = false)
    (h : s.holds d w) : (s.step mxcsr_table op).holds d w := by
  obtain ⟨hw, hl⟩ := h
  cases op with
  | set e mode =>
    have hne : e ≠ d := by simpa [RoundingOp.setsDomain] using hop
    unfold RoundingState.step SetGuestRoundingMode RoundingState.holds
    by_cases hc : loadedDomain s.ctx = e
    · simp only [hc, if_true]
      refine ⟨by rw [logicalWord_setLogicalWord_other _ _ hne]; exact hw, ?_⟩
      rw [loadedDomain_setLogicalWord, hc]
      intro habs
      exact absurd habs hne
    · simp only [hc, if_false]
      refine ⟨by rw [logicalWord_setLogicalWord_other _ _ hne]; exact hw, ?_⟩
      rw [loadedDomain_setLogicalWord]
      exact hl
  | ensure e =>
    unfold RoundingState.step RoundingState.holds
    refine ⟨by rw [logicalWord_EnsureDomain]; exact hw, ?_⟩
    rw [loadedDomain_EnsureDomain]
    intro hed
    subst hed
    unfold EnsureDomain
    by_cases hc : loadedDomain s.ctx = e
    · simp only [hc, if_true]
      exact hl hc
    · simp only [hc, if_false]
      exact hw

theorem RoundingState.holds_foldl (mxcsr_table : Nat → Nat) (d : RoundingDomain) (w : Nat)
    (ops : List RoundingOp) :
    ∀ s : RoundingState, (∀ op ∈ ops, op.setsDomain d = false) → s.holds d w →
      (ops.foldl (RoundingState.step mxcsr_table) s).holds d w := by
  induction ops with
  | nil => intro s _ h; exact h
  | cons op rest ih =>
    intro s hops h
    rw [List.foldl_cons]
    apply ih
    · intro o ho
      exact hops o (List.mem_cons_of_mem _ ho)
    · exact RoundingState.holds_step mxcsr_table s d w op (hops op (List.mem_cons_self _ _)) h

/-- C5: for every state and domain d, a second EnsureDomain(d) in a row
changes nothing (no reload of the physical register); EnsureDomain(d) while
the other domain is loaded reloads the physical register once, from d's
logical word, and flips bit `kX64BackendMXCSRModeBit` of `flags` leaving the
other bits alone; and after SetGuestRoundingMode(d, mode) followed by any
operations that are not a SetGuestRoundingMode for d, d's logical word is
the word of `mode` and EnsureDomain(d) leaves exactly that word in the
physical register. -/
theorem ensure_domain_reloads_only_on_switch (mxcsr_table : Nat → Nat) (s : RoundingState)
    (d : RoundingDomain) :
    (EnsureDomain (EnsureDomain s d) d = EnsureDomain s d ∧
      (EnsureDomain (EnsureDomain s d) d).loads = (EnsureDomain s d).loads ∧
      (EnsureDomain (EnsureDomain s d) d).mxcsr = (EnsureDomain s d).mxcsr) ∧
    (loadedDomain s.ctx ≠ d →
      (EnsureDomain s d).loads = s.loads + 1 ∧
      (EnsureDomain s d).mxcsr = logicalWord s.ctx d ∧
      (EnsureDomain s d).ctx.flags.testBit kX64BackendMXCSRModeBit
        = !s.ctx.flags.testBit kX64BackendMXCSRModeBit ∧
      (∀ j, j ≠ kX64BackendMXCSRModeBit →
        (EnsureDomain s d).ctx.flags.testBit j = s.ctx.flags.testBit j) ∧
      loadedDomain (EnsureDomain s d).ctx = d) ∧
    (∀ (mode : Nat) (ops : List RoundingOp), (∀ op ∈ ops, op.setsDomain d = false) →
      logicalWord (ops.foldl (RoundingState.step mxcsr_table)
        (SetGuestRoundingMode mxcsr_table s d mode)).ctx d = mxcsr_table mode ∧
      (EnsureDomain (ops.foldl (RoundingState.step mxcsr_table)
        (SetGuestRoundingMode mxcsr_table s d mode)) d).mxcsr = mxcsr_table mode) := by
  have htwice : EnsureDomain (EnsureDomain s d) d = EnsureDomain s d := by
    have hl := loadedDomain_EnsureDomain s d
    generalize EnsureDomain s d = r at hl
    unfold EnsureDomain
    simp [hl]
  refine ⟨⟨htwice, by rw [htwice], by rw [htwice]⟩, ?_, ?_⟩
  · intro hne
    refine ⟨?_, ?_, ?_, ?_, loadedDomain_EnsureDomain s d⟩
    · simp [EnsureDomain, hne]
    · simp [EnsureDomain, hne]
    · simp only [EnsureDomain, hne, if_false, testBit_flip_mode_bit, if_true]
    · intro j hj
      simp only [EnsureDomain, hne, if_false, testBit_flip_mode_bit, hj]
  · intro mode ops hops
    have hinv := RoundingState.holds_foldl mxcsr_table d (mxcsr_table mode) ops _ hops
      (RoundingState.holds_set mxcsr_table s d mode)
    generalize ops.foldl (RoundingState.step mxcsr_table)
      (SetGuestRoundingMode mxcsr_table s d mode) = r at hinv
    obtain ⟨hw, hl⟩ := hinv
    refine ⟨hw, ?_⟩
    unfold EnsureDomain
    by_cases hc : loadedDomain r.ctx = d
    · simp only [hc, if_true]
      exact hl hc
    · simp only [hc, if_false]
      exact hw

/-- From the initial context (fpu loaded), entering vmx loads the default vmx
word once, entering it again loads nothing, and a vmx mode set before a
detour through fpu is what the next entry to vmx loads. -/
theorem ensure_domain_reloads_only_on_switch_witness :
    loadedDomain scenarioRoundingState.ctx ≠ RoundingDomain.vmx ∧
    (EnsureDomain scenarioRoundingState .vmx).loads = scenarioRoundingState.loads + 1 ∧
    (EnsureDomain scenarioRoundingState .vmx).mxcsr = DEFAULT_VMX_MXCSR ∧
    (EnsureDomain (EnsureDomain scenarioRoundingState .vmx) .vmx).loads
      = (EnsureDomain scenarioRoundingState .vmx).loads ∧
    (EnsureDomain ([RoundingOp.ensure .fpu, .set .fpu 1, .ensure .fpu].foldl
      (RoundingState.step scenarioTable)
      (SetGuestRoundingMode scenarioTable scenarioRoundingState .vmx 2)) .vmx).mxcsr
      = scenarioTable 2 :=
  ⟨by decide,
   ((ensure_domain_reloads_only_on_switch scenarioTable scenarioRoundingState .vmx).2.1
     (by decide)).1,
   ((ensure_domain_reloads_only_on_switch scenarioTable scenarioRoundingState .vmx).2.1
     (by decide)).2.1,
   (ensure_domain_reloads_only_on_switch scenarioTable scenarioRoundingState .vmx).1.2.1,
   ((ensure_domain_reloads_only_on_switch scenarioTable scenarioRoundingState .vmx).2.2 2
     [RoundingOp.ensure .fpu, .set .fpu 1, .ensure .fpu] (by decide)).2⟩

/-! ## Layout constants -/

/-- C6: the reservation bitmap has one bit per 64 KiB block of the 32-bit
guest address space: `RESERVE_NUM_ENTRIES = 2^32 >> 16 = 65536`, `blocks` has
`65536 / 64 = 1024` words, every 32-bit address has block index below 65536,
word index below 1024 and bit number below 64, two addresses share the
(word, bit) pair exactly when they lie in the same 64 KiB-aligned block, and
every bit of the array is the image of some 32-bit address. -/
theorem reservation_bitmap_geometry :
    RESERVE_NUM_ENTRIES = 2 ^ 32 >>> 16 ∧ RESERVE_NUM_ENTRIES = 65536 ∧
    RESERVE_NUM_ENTRIES / 64 = 1024 ∧
    (∀ a, a < 2 ^ 32 →
      a >>> RESERVE_BLOCK_SHIFT < 65536 ∧ (a >>> RESERVE_BLOCK_SHIFT) / 64 < 1024 ∧
      (a >>> RESERVE_BLOCK_SHIFT) % 64 < 64 ∧
      reserveBlock a = a >>> RESERVE_BLOCK_SHIFT ∧
      (reserveWord a).val = (a >>> RESERVE_BLOCK_SHIFT) / 64 ∧
      reserveBit a = (a >>> RESERVE_BLOCK_SHIFT) % 64) ∧
    (∀ a a', a < 2 ^ 32 → a' < 2 ^ 32 →
      (((a >>> RESERVE_BLOCK_SHIFT) / 64 = (a' >>> RESERVE_BLOCK_SHIFT) / 64 ∧
          (a >>> RESERVE_BLOCK_SHIFT) % 64 = (a' >>> RESERVE_BLOCK_SHIFT) % 64) ↔
        a / 65536 = a' / 65536)) ∧
    (∀ w bit, w < RESERVE_NUM_ENTRIES / 64 → bit < 64 →
      ∃ a, a < 2 ^ 32 ∧ (a >>> RESERVE_BLOCK_SHIFT) / 64 = w ∧
        (a >>> RESERVE_BLOCK_SHIFT) % 64 = bit) := by
  have hN : RESERVE_NUM_ENTRIES = 65536 := by decide
  have hdiv : ∀ x : Nat, x >>> RESERVE_BLOCK_SHIFT = x / 65536 := by
    intro x
    simp [RESERVE_BLOCK_SHIFT, Nat.shiftRight_eq_div_pow]
  refine ⟨by decide, hN, by decide, ?_, ?_, ?_⟩
  · intro a ha
    have hb := reserveBlock_eq_of_lt ha
    refine ⟨?_, ?_, ?_, hb, ?_, ?_⟩
    · rw [hdiv]; omega
    · rw [hdiv]; omega
    · omega
    · simp [reserveWord, hb]
    · simp [reserveBit, hb]
  · intro a a' _ _
    simp only [hdiv]
    omega
  · intro w bit hw hbit
    have hw2 : w < 1024 := by
      have h2 : RESERVE_NUM_ENTRIES / 64 = 1024 := by decide
      omega
    refine ⟨(w * 64 + bit) * 65536, by omega, ?_, ?_⟩
    · rw [hdiv]; omega
    · rw [hdiv]; omega

/-- Sample addresses: `0x12345678` falls in word 72, bit 52; `0x1000` and
`0x1008` share their bit; the last bit of the array, word 1023 bit 63, is
reached. -/
theorem reservation_bitmap_geometry_witness :
    (0x1008 : Nat) >>> RESERVE_BLOCK_SHIFT < 65536 ∧
    (reserveWord 0x12345678).val = 72 ∧ reserveBit 0x12345678 = 52 ∧
    (((0x1000 : Nat) >>> RESERVE_BLOCK_SHIFT) / 64 = ((0x1008 : Nat) >>> RESERVE_BLOCK_SHIFT) / 64 ∧
      ((0x1000 : Nat) >>> RESERVE_BLOCK_SHIFT) % 64 = ((0x1008 : Nat) >>> RESERVE_BLOCK_SHIFT) % 64) ∧
    (∃ a, a < 2 ^ 32 ∧ (a >>> RESERVE_BLOCK_SHIFT) / 64 = 1023 ∧
      (a >>> RESERVE_BLOCK_SHIFT) % 64 = 63) :=
  ⟨(reservation_bitmap_geometry.2.2.2.1 0x1008 (by decide)).1,
   (reservation_bitmap_geometry.2.2.2.1 0x12345678 (by decide)).2.2.2.2.1.trans (by decide),
   (reservation_bitmap_geometry.2.2.2.1 0x12345678 (by decide)).2.2.2.2.2.trans (by decide),
   (reservation_bitmap_geometry.2.2.2.2.1 0x1000 0x1008 (by decide) (by decide)).2 (by decide),
   reservation_bitmap_geometry.2.2.2.2.2 1023 63 (by decide) (by decide)⟩

/-- C7: the trampoline slots tile the reserved range:
`MAX_GUEST_TRAMPOLINES = (0x80040000 - 0x80000000) / 8 = 32768` with no
remainder; for every slot index below it the slot address
`GUEST_TRAMPOLINE_BASE + i * GUEST_TRAMPOLINE_MIN_LEN` fits in 32 bits, is
8-byte aligned, the slot lies inside
`[GUEST_TRAMPOLINE_BASE, GUEST_TRAMPOLINE_END)`, and
`(addr - GUEST_TRAMPOLINE_BASE) / 8` recovers the index; distinct indices
give disjoint slots. -/
theorem trampoline_slots_tile_range :
    MAX_GUEST_TRAMPOLINES = 32768 ∧
    (GUEST_TRAMPOLINE_END - GUEST_TRAMPOLINE_BASE) % GUEST_TRAMPOLINE_MIN_LEN = 0 ∧
    MAX_GUEST_TRAMPOLINES * GUEST_TRAMPOLINE_MIN_LEN
      = GUEST_TRAMPOLINE_END - GUEST_TRAMPOLINE_BASE ∧
    (∀ i, i < MAX_GUEST_TRAMPOLINES →
      GUEST_TRAMPOLINE_BASE + i * GUEST_TRAMPOLINE_MIN_LEN < 2 ^ 32 ∧
      (GUEST_TRAMPOLINE_BASE + i * GUEST_TRAMPOLINE_MIN_LEN) % 8 = 0 ∧
      GUEST_TRAMPOLINE_BASE ≤ GUEST_TRAMPOLINE_BASE + i * GUEST_TRAMPOLINE_MIN_LEN ∧
      GUEST_TRAMPOLINE_BASE + i * GUEST_TRAMPOLINE_MIN_LEN + GUEST_TRAMPOLINE_MIN_LEN
        ≤ GUEST_TRAMPOLINE_END ∧
      (GUEST_TRAMPOLINE_BASE + i * GUEST_TRAMPOLINE_MIN_LEN - GUEST_TRAMPOLINE_BASE)
        / GUEST_TRAMPOLINE_MIN_LEN = i) ∧
    (∀ i j, i < MAX_GUEST_TRAMPOLINES → j < MAX_GUEST_TRAMPOLINES → i ≠ j →
      GUEST_TRAMPOLINE_BASE + i * GUEST_TRAMPOLINE_MIN_LEN + GUEST_TRAMPOLINE_MIN_LEN
        ≤ GUEST_TRAMPOLINE_BASE + j * GUEST_TRAMPOLINE_MIN_LEN ∨
      GUEST_TRAMPOLINE_BASE + j * GUEST_TRAMPOLINE_MIN_LEN + GUEST_TRAMPOLINE_MIN_LEN
        ≤ GUEST_TRAMPOLINE_BASE + i * GUEST_TRAMPOLINE_MIN_LEN) := by
  have hM : MAX_GUEST_TRAMPOLINES = 32768 := by decide
  refine ⟨hM, by decide, by decide, ?_, ?_⟩
  · intro i hi
    rw [hM] at hi
    simp only [GUEST_TRAMPOLINE_BASE, GUEST_TRAMPOLINE_END, GUEST_TRAMPOLINE_MIN_LEN]
    omega
  · intro i j hi hj hij
    simp only [GUEST_TRAMPOLINE_BASE, GUEST_TRAMPOLINE_MIN_LEN]
    omega

/-- The last slot, index 32767, ends at `GUEST_TRAMPOLINE_END`; slots 0 and 1
are disjoint. -/
theorem trampoline_slots_tile_range_witness :
    GUEST_TRAMPOLINE_BASE + 32767 * GUEST_TRAMPOLINE_MIN_LEN < 2 ^ 32 ∧
    GUEST_TRAMPOLINE_BASE + 32767 * GUEST_TRAMPOLINE_MIN_LEN + GUEST_TRAMPOLINE_MIN_LEN
      ≤ GUEST_TRAMPOLINE_END ∧
    (GUEST_TRAMPOLINE_BASE + 0 * GUEST_TRAMPOLINE_MIN_LEN + GUEST_TRAMPOLINE_MIN_LEN
        ≤ GUEST_TRAMPOLINE_BASE + 1 * GUEST_TRAMPOLINE_MIN_LEN ∨
      GUEST_TRAMPOLINE_BASE + 1 * GUEST_TRAMPOLINE_MIN_LEN + GUEST_TRAMPOLINE_MIN_LEN
        ≤ GUEST_TRAMPOLINE_BASE + 0 * GUEST_TRAMPOLINE_MIN_LEN) :=
  ⟨(trampoline_slots_tile_range.2.2.2.1 32767 (by decide)).1,
   (trampoline_slots_tile_range.2.2.2.1 32767 (by decide)).2.2.2.1,
   trampoline_slots_tile_range.2.2.2.2 0 1 (by decide) (by decide) (by decide)⟩

/-- C8: for every guest context address `ctx`,
`BackendContextForGuestContext ctx` is `ctx - sizeof(X64BackendContext)` in
64-bit pointer arithmetic, so the block it designates ends exactly at `ctx`
(result + size = ctx, exactly so whenever `ctx` is at least the size); and
for every block base `b`, the function applied to `b + size` gives back
`b`. -/
theorem backend_context_ends_at_guest_context :
    (∀ ctx, ctx < 2 ^ 64 →
      (BackendContextForGuestContext ctx + sizeof_X64BackendContext) % 2 ^ 64 = ctx) ∧
    (∀ ctx, sizeof_X64BackendContext ≤ ctx → ctx < 2 ^ 64 →
      BackendContextForGuestContext ctx = ctx - sizeof_X64BackendContext ∧
      BackendContextForGuestContext ctx + sizeof_X64BackendContext = ctx) ∧
    (∀ b, b < 2 ^ 64 →
      BackendContextForGuestContext ((b + sizeof_X64BackendContext) % 2 ^ 64) = b) := by
  have hs : sizeof_X64BackendContext = 128 := by decide
  simp only [BackendContextForGuestContext, hs]
  refine ⟨?_, ?_, ?_⟩
  · intro ctx h; omega
  · intro ctx h1 h2; omega
  · intro b h; omega

/-- A guest context at `0x1000` has its backend context at `0xF80`; the null
context wraps around in 64-bit arithmetic. -/
theorem backend_context_ends_at_guest_context_witness :
    BackendContextForGuestContext 0x1000 = 0x1000 - sizeof_X64BackendContext ∧
    BackendContextForGuestContext 0x1000 + sizeof_X64BackendContext = 0x1000 ∧
    BackendContextForGuestContext ((0xF80 + sizeof_X64BackendContext) % 2 ^ 64) = 0xF80 ∧
    (BackendContextForGuestContext 0 + sizeof_X64BackendContext) % 2 ^ 64 = 0 :=
  ⟨(backend_context_ends_at_guest_context.2.1 0x1000 (by decide) (by decide)).1,
   (backend_context_ends_at_guest_context.2.1 0x1000 (by decide) (by decide)).2,
   backend_context_ends_at_guest_context.2.2 0xF80 (by decide),
   backend_context_ends_at_guest_context.1 0 (by decide)⟩

/-- C9: `DEFAULT_FPU_MXCSR = 0x1F80` has all six exception masks set,
flush-to-zero (0x8000) clear and rounding-control bits (0x6000) zero;
`DEFAULT_VMX_MXCSR = 0x8000 | 0x0040 | _MM_MASK_MASK = 0x9FC0` has
flush-to-zero set, the same exception masks and rounding-control bits, and
differs from `DEFAULT_FPU_MXCSR` in exactly the bits 0x8000 and 0x0040. -/
theorem default_mxcsr_constants :
    DEFAULT_FPU_MXCSR = 0x1F80 ∧
    DEFAULT_FPU_MXCSR &&& 0x1F80 = 0x1F80 ∧
    DEFAULT_FPU_MXCSR &&& 0x8000 = 0 ∧
    DEFAULT_FPU_MXCSR &&& 0x6000 = 0 ∧
    _MM_MASK_MASK = 0x1F80 ∧
    _MM_MASK_MASK = 2 ^ 7 + 2 ^ 8 + 2 ^ 9 + 2 ^ 10 + 2 ^ 11 + 2 ^ 12 ∧
    DEFAULT_VMX_MXCSR = 0x8000 ||| 0x0040 ||| _MM_MASK_MASK ∧
    DEFAULT_VMX_MXCSR = 0x9FC0 ∧
    DEFAULT_VMX_MXCSR &&& 0x8000 = 0x8000 ∧
    DEFAULT_VMX_MXCSR &&& 0x1F80 = DEFAULT_FPU_MXCSR &&& 0x1F80 ∧
    DEFAULT_VMX_MXCSR &&& 0x6000 = DEFAULT_FPU_MXCSR &&& 0x6000 ∧
    DEFAULT_VMX_MXCSR ^^^ DEFAULT_FPU_MXCSR = 0x8000 ||| 0x0040 := by
  decide

/-- C10: `synchronize_guest_and_host_stack_helper_for_size(sz)` returns the
8-bit helper for `sz = 1`, the 16-bit helper for `sz = 2`, the 32-bit helper
for `sz = 4`, and the 32-bit helper for every other `sz`; it returns a
helper for every `sz`. -/
theorem helper_for_size_selects_by_width (b : X64Backend) (sz : Nat) :
    (sz = 1 → b.synchronize_guest_and_host_stack_helper_for_size sz
      = b.synchronize_guest_and_host_stack_helper_size8_) ∧
    (sz = 2 → b.synchronize_guest_and_host_stack_helper_for_size sz
      = b.synchronize_guest_and_host_stack_helper_size16_) ∧
    (sz = 4 → b.synchronize_guest_and_host_stack_helper_for_size sz
      = b.synchronize_guest_and_host_stack_helper_size32_) ∧
    (sz ≠ 1 → sz ≠ 2 → b.synchronize_guest_and_host_stack_helper_for_size sz
      = b.synchronize_guest_and_host_stack_helper_size32_) ∧
    (∃ p, b.synchronize_guest_and_host_stack_helper_for_size sz = p) := by
  refine ⟨?_, ?_, ?_, ?_, ⟨_, rfl⟩⟩
  · rintro rfl; rfl
  · rintro rfl; rfl
  · rintro rfl; rfl
  · intro h1 h2
    unfold X64Backend.synchronize_guest_and_host_stack_helper_for_size
    split
    · exact absurd rfl h1
    · exact absurd rfl h2
    · rfl


/-- Widths 1, 2 and 4 select the three helpers of a sample backend; widths 8
and 0 fall through to the 32-bit helper. -/
theorem helper_for_size_selects_by_width_witness :
    scenarioBackend.synchronize_guest_and_host_stack_helper_for_size 1
      = scenarioBackend.synchronize_guest_and_host_stack_helper_size8_ ∧
    scenarioBackend.synchronize_guest_and_host_stack_helper_for_size 2
      = scenarioBackend.synchronize_guest_and_host_stack_helper_size16_ ∧
    scenarioBackend.synchronize_guest_and_host_stack_helper_for_size 4
      = scenarioBackend.synchronize_guest_and_host_stack_helper_size32_ ∧
    scenarioBackend.synchronize_guest_and_host_stack_helper_for_size 8
      = scenarioBackend.synchronize_guest_and_host_stack_helper_size32_ ∧
    scenarioBackend.synchronize_guest_and_host_stack_helper_for_size 0
      = scenarioBackend.synchronize_guest_and_host_stack_helper_size32_ :=
  ⟨(helper_for_size_selects_by_width scenarioBackend 1).1 rfl,
   (helper_for_size_selects_by_width scenarioBackend 2).2.1 rfl,
   (helper_for_size_selects_by_width scenarioBackend 4).2.2.1 rfl,
   (helper_for_size_selects_by_width scenarioBackend 8).2.2.2.1 (by decide) (by decide),
   (helper_for_size_selects_by_width scenarioBackend 0).2.2.2.1 (by decide) (by decide)⟩

end xe.cpu.backend.x64

namespace xe.kernel.xam

theorem mode_lt_sixteen (flags : Nat) : flags &&& 0xF < 16 :=
  Nat.and_lt_two_pow flags (by decide : 0xF < 2 ^ 4)

theorem createOrOpen_table {σ : Type} (x : Xbox) (cm : ContentManager σ) (root_name : String)
    (flags : Nat) (d : XCONTENT_AGGREGATE_DATA) (s : σ) :
    (xeXamContentCreate.createOrOpen x cm root_name flags d s).result
      = (createModeTable x cm root_name d s (flags &&& 0xF)).1 ∧
    (xeXamContentCreate.createOrOpen x cm root_name flags d s).disposition.toUInt32
      = (createModeTable x cm root_name d s (flags &&& 0xF)).2 ∧
    (ManagerCall.CreateContent ∈ (xeXamContentCreate.createOrOpen x cm root_name flags d s).calls
      ↔ (createModeTable x cm root_name d s (flags &&& 0xF)).2 = 1) ∧
    (ManagerCall.OpenContent ∈ (xeXamContentCreate.createOrOpen x cm root_name flags d s).calls
      ↔ (createModeTable x cm root_name d s (flags &&& 0xF)).2 = 2) ∧
    (ManagerCall.DeleteContent ∈ (xeXamContentCreate.createOrOpen x cm root_name flags d s).calls
      ↔ ((flags &&& 0xF = 2 ∨ flags &&& 0xF = 5) ∧ (cm.ContentExists s d).2 = true)) := by
  have hm := mode_lt_sixteen flags
  unfold xeXamContentCreate.createOrOpen xeXamContentCreate.modeSwitch createModeTable
  generalize flags &&& 0xF = m at hm
  interval_cases m <;>
    cases he : (cm.ContentExists s d).2 <;>
    simp [he, kDispositionState.toUInt32] <;>
    split_ifs <;> simp

/-- C11: a synchronous call of `xeXamContentCreate` (null `overlapped_ptr`)
with an accepted `content_data_size` returns the status the mode table
gives for `mode = flags & 0xF` and for whether the content exists, and runs
nothing deferred; a non-null `disposition_ptr` receives, as the last store,
the table's disposition, which is 1 exactly when `CreateContent` was called,
2 exactly when `OpenContent` was called and 0 otherwise; `DeleteContent` is
called exactly in modes 2 and 5 on existing content; and two calls whose
flags agree on the low four bits have the same outcome. -/
theorem create_outcome_follows_mode_table {σ : Type} (x : Xbox) (mem : GuestMemory)
    (cm : ContentManager σ) (license_mask : Int) (s : σ) (user_index : Nat)
    (root_name : String)
    (content_data_ptr content_data_size flags disposition_ptr license_mask_ptr : Nat)
    (cache_size content_size : Nat) (out : CreateOutcome σ)
    (hout : out = xeXamContentCreate x mem cm license_mask s user_index root_name
      content_data_ptr content_data_size flags disposition_ptr license_mask_ptr
      cache_size content_size 0)
    (hsize : content_data_size = x.sizeof_XCONTENT_DATA ∨
      content_data_size = x.sizeof_XCONTENT_AGGREGATE_DATA) :
    out.returned = (createModeTable x cm root_name
      (readContentData x mem content_data_ptr content_data_size) s (flags &&& 0xF)).1 ∧
    out.deferred.isNone = true ∧
    (disposition_ptr ≠ 0 → out.writes.getLast? = some (.dword disposition_ptr
      (createModeTable x cm root_name
        (readContentData x mem content_data_ptr content_data_size) s (flags &&& 0xF)).2)) ∧
    (ManagerCall.CreateContent ∈ out.calls ↔ (createModeTable x cm root_name
      (readContentData x mem content_data_ptr content_data_size) s (flags &&& 0xF)).2 = 1) ∧
    (ManagerCall.OpenContent ∈ out.calls ↔ (createModeTable x cm root_name
      (readContentData x mem content_data_ptr content_data_size) s (flags &&& 0xF)).2 = 2) ∧
    ((ManagerCall.CreateContent ∉ out.calls ∧ ManagerCall.OpenContent ∉ out.calls) ↔
      (createModeTable x cm root_name
        (readContentData x mem content_data_ptr content_data_size) s (flags &&& 0xF)).2 = 0) ∧
    (ManagerCall.DeleteContent ∈ out.calls ↔
      ((flags &&& 0xF = 2 ∨ flags &&& 0xF = 5) ∧
        (cm.ContentExists s (readContentData x mem content_data_ptr content_data_size)).2
          = true)) ∧
    (∀ flags2, flags2 &&& 0xF = flags &&& 0xF →
      xeXamContentCreate x mem cm license_mask s user_index root_name
        content_data_ptr content_data_size flags2 disposition_ptr license_mask_ptr
        cache_size content_size 0 = out) := by
  obtain ⟨hres, hdisp, hcreate, hopen, hdelete⟩ := createOrOpen_table x cm root_name flags
    (readContentData x mem content_data_ptr content_data_size) s
  have hcall : xeXamContentCreate x mem cm license_mask s user_index root_name
      content_data_ptr content_data_size flags disposition_ptr license_mask_ptr
      cache_size content_size 0 =
      { returned := (xeXamContentCreate.run x cm license_mask root_name flags
          (readContentData x mem content_data_ptr content_data_size)
          disposition_ptr license_mask_ptr 0 s).result
        manager := (xeXamContentCreate.run x cm license_mask root_name flags
          (readContentData x mem content_data_ptr content_data_size)
          disposition_ptr license_mask_ptr 0 s).manager
        calls := (xeXamContentCreate.run x cm license_mask root_name flags
          (readContentData x mem content_data_ptr content_data_size)
          disposition_ptr license_mask_ptr 0 s).calls
        writes := (xeXamContentCreate.run x cm license_mask root_name flags
          (readContentData x mem content_data_ptr content_data_size)
          disposition_ptr license_mask_ptr 0 s).writes
        deferred := none } := by
    unfold xeXamContentCreate
    rw [if_pos hsize, if_pos rfl]
  subst hout
  rw [hcall]
  refine ⟨?_, rfl, ?_, hcreate, hopen, ?_, hdelete, ?_⟩
  · show (if _ ∧ (0 : Nat) ≠ 0 then _ else _) = _
    rw [if_neg (fun h => h.2 rfl)]
    exact hres
  · intro hd
    rw [← hdisp]
    simp [xeXamContentCreate.run, hd, List.getLast?_append]
  · have hc : ManagerCall.CreateContent ∈ (xeXamContentCreate.run x cm license_mask root_name
        flags (readContentData x mem content_data_ptr content_data_size)
        disposition_ptr license_mask_ptr 0 s).calls ↔ _ := hcreate
    have ho : ManagerCall.OpenContent ∈ (xeXamContentCreate.run x cm license_mask root_name
        flags (readContentData x mem content_data_ptr content_data_size)
        disposition_ptr license_mask_ptr 0 s).calls ↔ _ := hopen
    rw [hc, ho, ← hdisp]
    cases (xeXamContentCreate.createOrOpen x cm root_name flags
      (readContentData x mem content_data_ptr content_data_size) s).disposition <;>
      simp [kDispositionState.toUInt32]
  · intro flags2 h2
    unfold xeXamContentCreate
    rw [if_pos hsize, if_pos rfl]
    unfold xeXamContentCreate.run xeXamContentCreate.createOrOpen
      xeXamContentCreate.modeSwitch
    rw [h2]


theorem hugeThumbnail_length (s : Unit) (d : XCONTENT_AGGREGATE_DATA) :
    (hugeThumbnailManager.GetContentThumbnail s d).2.2.length = 2 ^ 32 :=
  List.length_replicate _ _

theorem finishEntry_status {σ : Type} (x : Xbox) (overlapped_ptr result : Nat) (manager : σ)
    (calls : List ManagerCall) (writes : List GuestWrite) :
    (finishEntry x overlapped_ptr result manager calls writes).status = result ∧
    (finishEntry x overlapped_ptr result manager calls writes).writes = writes ∧
    (overlapped_ptr = 0 →
      (finishEntry x overlapped_ptr result manager calls writes).returned = result ∧
      (finishEntry x overlapped_ptr result manager calls writes).completed = none) ∧
    (overlapped_ptr ≠ 0 →
      (finishEntry x overlapped_ptr result manager calls writes).returned
        = x.X_ERROR_IO_PENDING ∧
      (finishEntry x overlapped_ptr result manager calls writes).completed
        = some (overlapped_ptr, result)) := by
  unfold finishEntry EntryOutcome.status
  by_cases h : overlapped_ptr = 0 <;> simp [h]

/-- C12, amended: for every call of `XamContentGetThumbnail`, with `c` the
dword at `buffer_size_ptr` on entry and `n` the size of the thumbnail the
content manager returned, the first store sets `*buffer_size_ptr` to `n`
truncated to 32 bits, which is `n` whenever `n < 2 ^ 32`; when the lookup
satisfies `XSUCCEEDED` and `buffer_ptr` is non-null, `c < n` gives status
`X_ERROR_INSUFFICIENT_BUFFER` with no byte copied and `c >= n` copies the
`n` thumbnail bytes to `buffer_ptr` with the lookup's status; a null
`buffer_ptr` copies nothing and gives the lookup's status; no copy exceeds
`c` bytes; and the status is returned by a synchronous call and handed to
the overlapped, with `X_ERROR_IO_PENDING` returned, otherwise. -/
theorem get_thumbnail_outcome {σ : Type} (x : Xbox) (mem : GuestMemory)
    (cm : ContentManager σ) (s : σ)
    (user_index content_data_ptr buffer_ptr buffer_size_ptr overlapped_ptr c n : Nat)
    (out : EntryOutcome σ)
    (hout : out = XamContentGetThumbnail_entry x mem cm s user_index content_data_ptr
      buffer_ptr buffer_size_ptr overlapped_ptr)
    (hc : c = mem.dword buffer_size_ptr)
    (hn : n = (cm.GetContentThumbnail s (mem.as_XCONTENT_DATA content_data_ptr)).2.2.length) :
    out.writes.head? = some (.dword buffer_size_ptr (n % 2 ^ 32)) ∧
    (n < 2 ^ 32 → out.writes.head? = some (.dword buffer_size_ptr n)) ∧
    (x.XSUCCEEDED (cm.GetContentThumbnail s (mem.as_XCONTENT_DATA content_data_ptr)).2.1
        = true → buffer_ptr ≠ 0 → c < n →
      out.status = x.X_ERROR_INSUFFICIENT_BUFFER ∧
      out.writes = [.dword buffer_size_ptr (n % 2 ^ 32)]) ∧
    (x.XSUCCEEDED (cm.GetContentThumbnail s (mem.as_XCONTENT_DATA content_data_ptr)).2.1
        = true → buffer_ptr ≠ 0 → n ≤ c →
      out.status = (cm.GetContentThumbnail s (mem.as_XCONTENT_DATA content_data_ptr)).2.1 ∧
      out.writes = [.dword buffer_size_ptr (n % 2 ^ 32),
        .bytes buffer_ptr
          (cm.GetContentThumbnail s (mem.as_XCONTENT_DATA content_data_ptr)).2.2]) ∧
    (buffer_ptr = 0 →
      out.status = (cm.GetContentThumbnail s (mem.as_XCONTENT_DATA content_data_ptr)).2.1 ∧
      out.writes = [.dword buffer_size_ptr (n % 2 ^ 32)]) ∧
    (∀ a data, GuestWrite.bytes a data ∈ out.writes → a = buffer_ptr ∧ data.length ≤ c) ∧
    (overlapped_ptr = 0 → out.returned = out.status ∧ out.completed = none) ∧
    (overlapped_ptr ≠ 0 → out.returned = x.X_ERROR_IO_PENDING ∧
      out.completed = some (overlapped_ptr, out.status)) := by
  subst hout hc hn
  unfold XamContentGetThumbnail_entry
  simp only [finishEntry_status]
  generalize cm.GetContentThumbnail s (mem.as_XCONTENT_DATA content_data_ptr) = t
  refine ⟨rfl, ?_, ?_, ?_, ?_, ?_, ?_, ?_⟩
  · intro hlt
    rw [List.head?_cons, Nat.mod_eq_of_lt hlt]
  · intro hs hb hlt
    simp [hs, hb, hlt]
  · intro hs hb hle
    simp [hs, hb, Nat.not_lt.mpr hle]
  · intro hb
    simp [hb]
  · intro a data hmem
    by_cases hs : x.XSUCCEEDED t.2.1 = true <;> by_cases hb : buffer_ptr = 0 <;>
      by_cases hlt : mem.dword buffer_size_ptr < t.2.2.length <;>
      simp [hs, hb, hlt] at hmem
    obtain ⟨rfl, rfl⟩ := hmem
    exact ⟨rfl, Nat.not_lt.mp hlt⟩
  · intro ho
    exact ((finishEntry_status x overlapped_ptr _ _ _ _).2.2.1 ho)
  · intro ho
    exact ((finishEntry_status x overlapped_ptr _ _ _ _).2.2.2 ho)

/-- On the sample manager the three thumbnail bytes fit the 16-byte buffer:
the size 3 is stored, the bytes are copied and the status is the lookup's. -/
theorem get_thumbnail_outcome_witness :
    (sampleXbox.XSUCCEEDED (sampleManager.GetContentThumbnail []
      (sampleMemory.as_XCONTENT_DATA 0x100)).2.1 = true) ∧
    (0x300 : Nat) ≠ 0 ∧ (3 : Nat) ≤ 16 ∧
    (XamContentGetThumbnail_entry sampleXbox sampleMemory sampleManager [] 0 0x100 0x300
      0x200 0).status = 0 ∧
    (XamContentGetThumbnail_entry sampleXbox sampleMemory sampleManager [] 0 0x100 0x300
      0x200 0).writes = [.dword 0x200 3, .bytes 0x300 [1, 2, 3]] :=
  ⟨by decide, by decide, by decide,
   ((get_thumbnail_outcome sampleXbox sampleMemory sampleManager [] 0 0x100 0x300 0x200 0 16 3
      _ rfl rfl rfl).2.2.2.1 (by decide) (by decide) (by decide)).1,
   ((get_thumbnail_outcome sampleXbox sampleMemory sampleManager [] 0 0x100 0x300 0x200 0 16 3
      _ rfl rfl rfl).2.2.2.1 (by decide) (by decide) (by decide)).2⟩

/-- A thumbnail of `2 ^ 32` bytes: the only store is the dword 0 at
`buffer_size_ptr`, so the size stored is not the thumbnail's size. -/
theorem thumbnail_size_not_stored_in_full :
    (hugeThumbnailManager.GetContentThumbnail ()
      (sampleMemory.as_XCONTENT_DATA 0x100)).2.2.length = 2 ^ 32 ∧
    (XamContentGetThumbnail_entry sampleXbox sampleMemory hugeThumbnailManager () 0 0x100
      0x300 0x200 0).writes = [.dword 0x200 0] ∧
    GuestWrite.dword 0x200 (2 ^ 32) ∉
      (XamContentGetThumbnail_entry sampleXbox sampleMemory hugeThumbnailManager () 0 0x100
        0x300 0x200 0).writes := by
  have hlen := hugeThumbnail_length () (sampleMemory.as_XCONTENT_DATA 0x100)
  have hs : sampleXbox.XSUCCEEDED (hugeThumbnailManager.GetContentThumbnail ()
      (sampleMemory.as_XCONTENT_DATA 0x100)).2.1 = true := by decide
  have hlt : sampleMemory.dword 0x200 < 2 ^ 32 := by decide
  have hw : (XamContentGetThumbnail_entry sampleXbox sampleMemory hugeThumbnailManager () 0
      0x100 0x300 0x200 0).writes = [.dword 0x200 0] := by
    have hb : (0x300 : Nat) ≠ 0 := by decide
    unfold XamContentGetThumbnail_entry
    simp only [finishEntry_status, hlen, hs, if_true, hlt, Nat.mod_self, if_pos hb]
  refine ⟨hlen, hw, ?_⟩
  rw [hw]
  intro hmem
  rw [List.mem_singleton] at hmem
  injection hmem with _ h2
  exact absurd h2 (by decide)


/-- The stores and the result of the `run` lambda of `xeXamContentCreate` in
terms of the mode table: the license-mask block stores at
`license_mask_ptr` exactly when the pointer is non-null and the table's
status satisfies `XSUCCEEDED` (0, then the cast cvar over it for
marketplace content), the disposition store follows, a synchronous run
returns the table's status and an overlapped run turns every non-zero
status into `X_ERROR_FUNCTION_FAILED`. -/
theorem run_stores_follow_mode_table {σ : Type} (x : Xbox) (cm : ContentManager σ)
    (license_mask : Int) (root_name : String) (flags : Nat)
    (content_data : XCONTENT_AGGREGATE_DATA)
    (disposition_ptr license_mask_ptr overlapped_ptr : Nat) (s : σ) :
    (xeXamContentCreate.run x cm license_mask root_name flags content_data
      disposition_ptr license_mask_ptr overlapped_ptr s).writes =
      (if license_mask_ptr ≠ 0 ∧ x.XSUCCEEDED
          (createModeTable x cm root_name content_data s (flags &&& 0xF)).1 = true then
        if content_data.content_type = x.kMarketplaceContent then
          [.dword license_mask_ptr 0,
           .dword license_mask_ptr (static_cast_uint32 license_mask)]
        else [.dword license_mask_ptr 0]
      else []) ++
      (if disposition_ptr ≠ 0 then
        [.dword disposition_ptr
          (createModeTable x cm root_name content_data s (flags &&& 0xF)).2]
      else []) ∧
    (overlapped_ptr = 0 →
      (xeXamContentCreate.run x cm license_mask root_name flags content_data
        disposition_ptr license_mask_ptr overlapped_ptr s).result
        = (createModeTable x cm root_name content_data s (flags &&& 0xF)).1) ∧
    (overlapped_ptr ≠ 0 →
      (createModeTable x cm root_name content_data s (flags &&& 0xF)).1 ≠ 0 →
      (xeXamContentCreate.run x cm license_mask root_name flags content_data
        disposition_ptr license_mask_ptr overlapped_ptr s).result
        = x.X_ERROR_FUNCTION_FAILED) := by
  obtain ⟨hres, hdisp, _⟩ := createOrOpen_table x cm root_name flags content_data s
  simp only [xeXamContentCreate.run, xeXamContentCreate.licenseMaskWrites, hres, hdisp]
  refine ⟨trivial, ?_, ?_⟩
  · intro ho
    rw [if_neg (fun h => h.2 ho)]
  · intro ho hr
    rw [if_pos ⟨hr, ho⟩]

/-- C13: the call on which the code departs from the claim.  On the sample
environment, a synchronous CREATE_NEW (`flags = 1`) of marketplace content
that already exists, with the `license_mask` cvar at -1, returns
`X_ERROR_ALREADY_EXISTS`, a non-zero result, after calling neither
`CreateContent` nor `OpenContent`, and yet stores 0 and then `0xFFFFFFFF` at
`license_mask_ptr`: the caller's license mask is not left unchanged on this
failure.  The same run made overlapped reports `X_ERROR_FUNCTION_FAILED`,
the lambda's own treatment of a non-zero result as a failure. -/
theorem license_mask_stored_on_failed_create :
    failedCreateNew.returned = sampleXbox.X_ERROR_ALREADY_EXISTS ∧
    failedCreateNew.returned ≠ 0 ∧
    failedCreateNew.calls = [.ContentExists] ∧
    failedCreateNew.writes
      = [.dword 0x204 0, .dword 0x204 0xFFFFFFFF, .dword 0x200 0] ∧
    lastDwordStore failedCreateNew.writes 0x204 = some (static_cast_uint32 (-1)) ∧
    sampleXbox.XSUCCEEDED sampleXbox.X_ERROR_ALREADY_EXISTS = true ∧
    (xeXamContentCreate.run sampleXbox sampleManager (-1) "dlc" 1 ⟨2, 0x100⟩
      0x200 0x204 0x400 [⟨2, 0x100⟩]).result = sampleXbox.X_ERROR_FUNCTION_FAILED ∧
    (xeXamContentCreate.run sampleXbox sampleManager (-1) "dlc" 1 ⟨2, 0x100⟩
      0x200 0x204 0x400 [⟨2, 0x100⟩]).writes = failedCreateNew.writes := by
  refine ⟨?_, ?_, ?_, ?_, ?_, ?_, ?_, ?_⟩
  · decide
  · decide
  · decide
  · decide
  · decide
  · decide
  · decide
  · decide

/-- C14: a synchronous call of `XamContentGetCreator` (null `overlapped_ptr`)
on content that does not exist returns `X_ERROR_PATH_NOT_FOUND` and stores
nothing; on an existing saved game it stores 1 at `is_creator_ptr` and, with
a non-null `creator_xuid_ptr`, either the user is signed in, the user's xuid
is stored at `creator_xuid_ptr` and the status is `X_ERROR_SUCCESS`, or the
user is not signed in, nothing is stored there and the status is
`X_ERROR_NO_SUCH_USER`; on existing content of any other type it stores 0 at
`is_creator_ptr`, 0 at a non-null `creator_xuid_ptr`, and returns
`X_ERROR_SUCCESS`. -/
theorem get_creator_outcome {σ : Type} (x : Xbox) (mem : GuestMemory) (ks : KernelState)
    (cm : ContentManager σ) (s : σ)
    (user_index content_data_ptr is_creator_ptr creator_xuid_ptr : Nat)
    (out : EntryOutcome σ)
    (hout : out = XamContentGetCreator_entry x mem ks cm s user_index content_data_ptr
      is_creator_ptr creator_xuid_ptr 0) :
    ((cm.ContentExists s (mem.as_XCONTENT_DATA content_data_ptr)).2 = false →
      out.returned = x.X_ERROR_PATH_NOT_FOUND ∧ out.writes = []) ∧
    ((cm.ContentExists s (mem.as_XCONTENT_DATA content_data_ptr)).2 = true →
      (mem.as_XCONTENT_DATA content_data_ptr).content_type = x.kSavedGame →
      out.writes.head? = some (.dword is_creator_ptr 1) ∧
      (creator_xuid_ptr ≠ 0 → ks.IsUserSignedIn user_index = true →
        out.writes = [.dword is_creator_ptr 1,
          .qword creator_xuid_ptr (ks.user_profile_xuid user_index)] ∧
        out.returned = x.X_ERROR_SUCCESS) ∧
      (creator_xuid_ptr ≠ 0 → ks.IsUserSignedIn user_index = false →
        out.writes = [.dword is_creator_ptr 1] ∧
        out.returned = x.X_ERROR_NO_SUCH_USER) ∧
      (creator_xuid_ptr = 0 →
        out.writes = [.dword is_creator_ptr 1] ∧ out.returned = x.X_ERROR_SUCCESS)) ∧
    ((cm.ContentExists s (mem.as_XCONTENT_DATA content_data_ptr)).2 = true →
      (mem.as_XCONTENT_DATA content_data_ptr).content_type ≠ x.kSavedGame →
      out.writes.head? = some (.dword is_creator_ptr 0) ∧
      (creator_xuid_ptr ≠ 0 →
        out.writes = [.dword is_creator_ptr 0, .qword creator_xuid_ptr 0]) ∧
      (creator_xuid_ptr = 0 → out.writes = [.dword is_creator_ptr 0]) ∧
      out.returned = x.X_ERROR_SUCCESS) ∧
    out.completed = none := by
  subst hout
  have hf := fun (r : Nat) (m : σ) (c : List ManagerCall) (w : List GuestWrite) =>
    (finishEntry_status x 0 r m c w).2.2.1 rfl
  unfold XamContentGetCreator_entry
  simp only [hf, finishEntry_status]
  refine ⟨?_, ?_, ?_, trivial⟩
  · intro he
    simp [he]
  · intro he ht
    refine ⟨?_, ?_, ?_, ?_⟩
    · by_cases hp : creator_xuid_ptr = 0 <;> by_cases hu : ks.IsUserSignedIn user_index = true <;>
        simp [he, ht, hp, hu]
    · intro hp hu
      simp [he, ht, hp, hu]
    · intro hp hu
      simp [he, ht, hp, hu]
    · intro hp
      simp [he, ht, hp]
  · intro he ht
    refine ⟨?_, ?_, ?_, ?_⟩
    · simp [he, ht]
    · intro hp
      simp [he, ht, hp]
    · intro hp
      simp [he, ht, hp]
    · simp [he, ht]

/-- An existing saved game queried by the signed-in user 0 gets the creator
flag and the xuid; user 1 gets `X_ERROR_NO_SUCH_USER`; missing content gets
`X_ERROR_PATH_NOT_FOUND`. -/
theorem get_creator_outcome_witness :
    (sampleManager.ContentExists [⟨1, 0x100⟩] (sampleMemory.as_XCONTENT_DATA 0x100)).2 = true ∧
    (sampleMemory.as_XCONTENT_DATA 0x100).content_type = sampleXbox.kSavedGame ∧
    (0x200 : Nat) ≠ 0 ∧ sampleKernelState.IsUserSignedIn 0 = true ∧
    (XamContentGetCreator_entry sampleXbox sampleMemory sampleKernelState sampleManager
      [⟨1, 0x100⟩] 0 0x100 0x300 0x200 0).writes
      = [.dword 0x300 1, .qword 0x200 0xB13EBABEBABEBABE] ∧
    (XamContentGetCreator_entry sampleXbox sampleMemory sampleKernelState sampleManager
      [⟨1, 0x100⟩] 0 0x100 0x300 0x200 0).returned = 0 ∧
    (XamContentGetCreator_entry sampleXbox sampleMemory sampleKernelState sampleManager
      [⟨1, 0x100⟩] 1 0x100 0x300 0x200 0).returned = 1317 ∧
    (XamContentGetCreator_entry sampleXbox sampleMemory sampleKernelState sampleManager
      [] 0 0x100 0x300 0x200 0).returned = 3 :=
  ⟨by decide, by decide, by decide, by decide,
   (((get_creator_outcome sampleXbox sampleMemory sampleKernelState sampleManager
      [⟨1, 0x100⟩] 0 0x100 0x300 0x200 _ rfl).2.1 (by decide) (by decide)).2.1
      (by decide) (by decide)).1,
   (((get_creator_outcome sampleXbox sampleMemory sampleKernelState sampleManager
      [⟨1, 0x100⟩] 0 0x100 0x300 0x200 _ rfl).2.1 (by decide) (by decide)).2.1
      (by decide) (by decide)).2,
   (((get_creator_outcome sampleXbox sampleMemory sampleKernelState sampleManager
      [⟨1, 0x100⟩] 1 0x100 0x300 0x200 _ rfl).2.1 (by decide) (by decide)).2.2.1
      (by decide) (by decide)).2,
   ((get_creator_outcome sampleXbox sampleMemory sampleKernelState sampleManager
      [] 0 0x100 0x300 0x200 _ rfl).1 (by decide)).1⟩

/-- Mode 1 on the sample manager: existing content is refused with
`X_ERROR_ALREADY_EXISTS`, new content is created with disposition 1, a
failing create passes its code through; mode 6 is an invalid parameter.
The flag bits above the low four do not matter. -/
theorem create_outcome_follows_mode_table_witness :
    ((308 : Nat) = sampleXbox.sizeof_XCONTENT_DATA ∨
      (308 : Nat) = sampleXbox.sizeof_XCONTENT_AGGREGATE_DATA) ∧
    (xeXamContentCreate sampleXbox sampleMemory sampleManager 1 [⟨1, 0x100⟩] 0 "save" 0x100
      308 0x31 0x200 0x204 0 0 0).returned = 183 ∧
    (xeXamContentCreate sampleXbox sampleMemory sampleManager 1 [] 0 "save" 0x100
      308 0x31 0x200 0x204 0 0 0).returned = 0 ∧
    (xeXamContentCreate sampleXbox sampleMemory sampleManager 1 [] 0 "full" 0x100
      308 0x31 0x200 0x204 0 0 0).returned = 5 ∧
    (xeXamContentCreate sampleXbox sampleMemory sampleManager 1 [] 0 "save" 0x100
      308 0x31 0x200 0x204 0 0 0).writes.getLast? = some (.dword 0x200 1) ∧
    (xeXamContentCreate sampleXbox sampleMemory sampleManager 1 [] 0 "save" 0x100
      308 0x36 0x200 0x204 0 0 0).returned = 87 :=
  ⟨by decide,
   (create_outcome_follows_mode_table sampleXbox sampleMemory sampleManager 1 [⟨1, 0x100⟩] 0
      "save" 0x100 308 0x31 0x200 0x204 0 0 _ rfl (by decide)).1.trans (by decide),
   (create_outcome_follows_mode_table sampleXbox sampleMemory sampleManager 1 [] 0
      "save" 0x100 308 0x31 0x200 0x204 0 0 _ rfl (by decide)).1.trans (by decide),
   (create_outcome_follows_mode_table sampleXbox sampleMemory sampleManager 1 [] 0
      "full" 0x100 308 0x31 0x200 0x204 0 0 _ rfl (by decide)).1.trans (by decide),
   ((create_outcome_follows_mode_table sampleXbox sampleMemory sampleManager 1 [] 0
      "save" 0x100 308 0x31 0x200 0x204 0 0 _ rfl (by decide)).2.2.1 (by decide)).trans
      (by decide),
   (create_outcome_follows_mode_table sampleXbox sampleMemory sampleManager 1 [] 0
      "save" 0x100 308 0x36 0x200 0x204 0 0 _ rfl (by decide)).1.trans (by decide)⟩

end xe.kernel.xam
